import Mathlib

/-!
Verification development for the SharryBoii live AI agent repository.

This file is a shallow embedding of the conversation turn-taking core:
* `workflow.py`  — the `EnhancedAIAssistantWorkflow` LangGraph pipeline
  (intent patterns, parameter extraction, the seven stage nodes, the two
  conditional branches, `create_initial_state`, `invoke`);
* `chat_manager.py` — the `EnhancedChatManager` session driver
  (`process_audio_cycle`, the retry loop of `continuous_audio_processing`,
  `toggle_tools`, `restart_session`);
* `tools.py` — the `ToolRegistry.execute_tool` dispatcher.

External effects (microphone, Whisper/Groq transcription, the LLM agent,
ElevenLabs/gTTS synthesis, the leaf tool implementations which do network
or OS calls, and Python's `eval` inside `CalculatorTool.calculate`) are
abstracted as an environment record `TurnEnv`: each stage consumes the
outcome the environment provides for its single external call, exactly as
the Python `try`/`except` blocks consume the call's result or exception.
All state manipulation, string matching, branching and transcript updates
are embedded from the source.
-/

/-- Python `\s` whitespace class: space, tab, newline, carriage return,
vertical tab, form feed (ASCII model of `re`'s class). -/
def isPyWs (c : Char) : Bool :=
  c = ' ' || c = '\t' || c = '\n' || c = '\r' ||
  c = Char.ofNat 11 || c = Char.ofNat 12

/-- ASCII lower-casing of one character, modelling `str.lower()` on the
characters that occur in this code base. -/
def pyLowerChar (c : Char) : Char :=
  if 'A' ≤ c ∧ c ≤ 'Z' then Char.ofNat (c.toNat + 32) else c

/-- `str.lower()` on a character list. -/
def lowerL (l : List Char) : List Char := l.map pyLowerChar

/-- `str.strip()`: drop whitespace from both ends. -/
def trimL (l : List Char) : List Char :=
  ((l.dropWhile isPyWs).reverse.dropWhile isPyWs).reverse

/-- Python's `needle in hay` substring test. -/
def hasSub (needle : List Char) : List Char → Bool
  | [] => needle.isEmpty
  | c :: t => needle.isPrefixOf (c :: t) || hasSub needle t

/-- Python truthiness of a string (`if s:`). -/
def strTruthy (s : String) : Bool := !s.isEmpty

/-- Python truthiness of an optional string field (`if state.get("x"):`). -/
def errTruthy : Option String → Bool
  | some s => !s.isEmpty
  | none => false

/-- `dict.get(k)` on a keyword-argument association list. -/
def findKw (kw : List (String × String)) (k : String) : Option String :=
  (kw.find? (fun p => p.1 == k)).map (·.2)

/-- `dict.get(k, default)` on a keyword-argument association list. -/
def getKw (kw : List (String × String)) (k : String) (dflt : String) : String :=
  match findKw kw k with
  | some v => v
  | none => dflt

/-!
## A small regex engine

The workflow uses `re.search`/`re.sub` with a handful of pattern shapes:
literals, `.*`, `\s+`, `\d+`, one-character classes, one greedy captured
class (`(.+)`, `([a-zA-Z\s]+)`, `([\d\+\-\*\/\.\(\)\s]+)`), the optional
group `(?:for\s+)?` and top-level alternation.  `CAtom` covers exactly
those shapes; `matchAux` is a backtracking matcher that tries
alternatives in Python `re`'s priority order (greedy quantifiers prefer
longer matches, alternation prefers the earlier branch), so the first
success it finds is the match `re` would produce.  `reSearch` scans start
positions left to right like `re.search`.
-/

inductive CAtom where
  /-- literal text -/
  | lit (s : List Char)
  /-- `.*` — any run of non-newline characters, greedy -/
  | dotStar
  /-- `\s+` greedy -/
  | wsPlus
  /-- `\d+` greedy -/
  | digitsPlus
  /-- one-character class such as `[\+\-\*\/]` -/
  | cls1 (f : Char → Bool)
  /-- `([cls]+)` — greedy captured class (`(.+)` is `capPlus (· ≠ '\n')`) -/
  | capPlus (f : Char → Bool)
  /-- internal state of `capPlus` while extending the capture -/
  | capGo (f : Char → Bool) (acc : List Char)

/-- A pattern is an ordered list of alternative atom sequences: alternation
and the one optional group in the source patterns are flattened to the top
level, preserving `re`'s branch-priority order. -/
abbrev RPat := List (List CAtom)

/-- Weight used to size the matcher's fuel. -/
def patW : List CAtom → Nat
  | [] => 0
  | _ :: ps => 1 + patW ps

/-- First-success choice (backtracking alternative). -/
def oElse (a : Option α) (b : Unit → Option α) : Option α :=
  match a with
  | some x => some x
  | none => b ()

/-- Backtracking matcher.  Returns `some (capture?, rest)` for the match
`re` would pick at this start position (`rest` is the input after the
match end), `none` if no match starts here.  `fuel` only bounds the
recursion; `reFuel` below always supplies enough. -/
def matchAux : Nat → List CAtom → List Char → Option (List Char) →
    Option (Option (List Char) × List Char)
  | 0, _, _, _ => none
  | _ + 1, [], l, cap => some (cap, l)
  | fuel + 1, .lit s :: ps, l, cap =>
      if s.isPrefixOf l then matchAux fuel ps (l.drop s.length) cap else none
  | fuel + 1, .dotStar :: ps, l, cap =>
      oElse
        (match l with
         | c :: rest => if c ≠ '\n' then matchAux fuel (.dotStar :: ps) rest cap else none
         | [] => none)
        (fun _ => matchAux fuel ps l cap)
  | fuel + 1, .wsPlus :: ps, l, cap =>
      (match l with
       | c :: rest =>
          if isPyWs c then
            oElse (matchAux fuel (.wsPlus :: ps) rest cap) (fun _ => matchAux fuel ps rest cap)
          else none
       | [] => none)
  | fuel + 1, .digitsPlus :: ps, l, cap =>
      (match l with
       | c :: rest =>
          if c.isDigit then
            oElse (matchAux fuel (.digitsPlus :: ps) rest cap) (fun _ => matchAux fuel ps rest cap)
          else none
       | [] => none)
  | fuel + 1, .cls1 f :: ps, l, cap =>
      (match l with
       | c :: rest => if f c then matchAux fuel ps rest cap else none
       | [] => none)
  | fuel + 1, .capPlus f :: ps, l, cap =>
      (match l with
       | c :: rest => if f c then matchAux fuel (.capGo f [c] :: ps) rest cap else none
       | [] => none)
  | fuel + 1, .capGo f acc :: ps, l, cap =>
      oElse
        (match l with
         | c :: rest => if f c then matchAux fuel (.capGo f (acc ++ [c]) :: ps) rest cap else none
         | [] => none)
        (fun _ => matchAux fuel ps l (some acc))

/-- Sufficient fuel: every recursive call of `matchAux` strictly decreases
`patW pattern + input.length`. -/
def reFuel (p : List CAtom) (l : List Char) : Nat := patW p + l.length + 1

/-- Try the alternatives at a fixed start position, in branch-priority
order, like `re` does at each scan position. -/
def matchAlt : RPat → List Char → Option (Option (List Char) × List Char)
  | [], _ => none
  | b :: bs, l => oElse (matchAux (reFuel b l) b l none) (fun _ => matchAlt bs l)

/-- `re.search`: try the pattern at each start position, left to right. -/
def reSearch (p : RPat) : List Char → Option (Option (List Char) × List Char)
  | [] => matchAlt p []
  | c :: t => oElse (matchAlt p (c :: t)) (fun _ => reSearch p t)

/-- Boolean `re.search` result (used by intent detection). -/
def reTest (p : RPat) (l : List Char) : Bool := (reSearch p l).isSome

/-- `m.group(1)` of a successful `re.search` on a single-capture pattern. -/
def reCap (p : RPat) (l : List Char) : Option (List Char) :=
  match reSearch p l with
  | some (some c, _) => some c
  | _ => none

/-- `re.sub(anchored_pattern, "", s, flags=IGNORECASE)` for a pattern
anchored at `^`: match against the lower-cased text at position 0 only and
remove the matched span from the original. -/
def anchoredStrip (p : RPat) (l : List Char) : List Char :=
  let low := lowerL l
  match matchAlt p low with
  | some (_, rest) => l.drop (l.length - rest.length)
  | none => l

/-- Character class `[\d\+\-\*\/\.\(\)\s]` of the calculator expression
regex in `_extract_parameters`. -/
def calcClass (c : Char) : Bool :=
  c.isDigit || c = '+' || c = '-' || c = '*' || c = '/' ||
  c = '.' || c = '(' || c = ')' || isPyWs c

/-- Character class `[a-zA-Z\s]` of the weather city regex. -/
def alphaWsClass (c : Char) : Bool :=
  ('a' ≤ c ∧ c ≤ 'z') || ('A' ≤ c ∧ c ≤ 'Z') || isPyWs c

/-- `.`/`.+` character class: anything but a newline. -/
def notNl (c : Char) : Bool := c ≠ '\n'

/-- Operator class `[\+\-\*\/]` of the calculator intent pattern. -/
def isOpChar (c : Char) : Bool := c = '+' || c = '-' || c = '*' || c = '/'

/-- Shorthand: literal atom from a string literal. -/
def cL (s : String) : CAtom := .lit s.data

/-!
## Intent Classifier  (`workflow.py` lines 43-189)

`_setup_intent_patterns` declares an ordered dict of intent → regex list;
`_detect_intent` lower-cases the input and returns the first intent one of
whose patterns `re.search`-matches, scanning intents and patterns in
declaration order.
-/

inductive Intent where
  | vision | weather | search | news | time | system | calculator | files
deriving DecidableEq, Repr

/-- One whole-string alternative made only of literals (most patterns). -/
def lits (ss : List String) : RPat := ss.map (fun s => [cL s])

/-- The ordered pattern table of `_setup_intent_patterns`. -/
def intent_patterns : List (Intent × List RPat) :=
  [ (.vision,
      [ lits ["what do you see"], [[cL "analyze", .dotStar, cL "image"]], lits ["look at"],
        [[cL "describe", .dotStar, cL "image"]], [[cL "what", .dotStar, cL "in", .dotStar, cL "image"]],
        lits ["camera"], lits ["webcam"], lits ["picture"], lits ["photo"] ]),
    (.weather,
      [ lits ["weather"], lits ["temperature"], lits ["forecast"], lits ["rain"], lits ["sunny"],
        lits ["cloudy"], lits ["hot"], lits ["cold"], lits ["climate"] ]),
    (.search,
      [ lits ["search"], lits ["look up"], [[cL "find", .dotStar, cL "information"]], lits ["google"],
        lits ["what is"], lits ["tell me about"], lits ["research"] ]),
    (.news,
      [ lits ["news"], lits ["headlines"], lits ["current events"],
        [[cL "what", .dotStar, cL "happening"]], lits ["latest news"] ]),
    (.time,
      [ lits ["time"], lits ["what time"], lits ["current time"], lits ["clock"], lits ["date"] ]),
    (.system,
      [ lits ["system info"], lits ["computer"], lits ["cpu"], lits ["memory"],
        lits ["disk space"], lits ["performance"] ]),
    (.calculator,
      [ lits ["calculate"], lits ["math"],
        [[.digitsPlus, .dotStar, .cls1 isOpChar, .dotStar, .digitsPlus]],
        lits ["compute"], lits ["addition"], lits ["subtract"], lits ["multiply"], lits ["divide"] ]),
    (.files,
      [ lits ["list files"], lits ["show files"], lits ["directory"],
        lits ["folder contents"], lits ["what files"] ]) ]

/-- `_detect_intent`: first declared intent with a matching pattern. -/
def detect_intent (user_input : String) : Option Intent :=
  let low := lowerL user_input.data
  (intent_patterns.find? (fun ip => ip.2.any (fun p => reTest p low))).map (·.1)

/-- `r"weather.*in\s+([a-zA-Z\s]+)"` -/
def weatherCityP : RPat := [[cL "weather", .dotStar, cL "in", .wsPlus, .capPlus alphaWsClass]]

/-- The ordered search lead-in patterns of `_extract_parameters`:
`search\s+(?:for\s+)?(.+)`, `look\s+up\s+(.+)`, `find.*about\s+(.+)`,
`what\s+is\s+(.+)`, `tell\s+me\s+about\s+(.+)`.  The optional group of the
first pattern is flattened into two alternatives in greedy order. -/
def searchPs : List RPat :=
  [ [ [cL "search", .wsPlus, cL "for", .wsPlus, .capPlus notNl],
      [cL "search", .wsPlus, .capPlus notNl] ],
    [ [cL "look", .wsPlus, cL "up", .wsPlus, .capPlus notNl] ],
    [ [cL "find", .dotStar, cL "about", .wsPlus, .capPlus notNl] ],
    [ [cL "what", .wsPlus, cL "is", .wsPlus, .capPlus notNl] ],
    [ [cL "tell", .wsPlus, cL "me", .wsPlus, cL "about", .wsPlus, .capPlus notNl] ] ]

/-- `r"([\d\+\-\*\/\.\(\)\s]+)"` -/
def calcP : RPat := [[.capPlus calcClass]]

/-- The three `re.sub` prefix patterns of the vision branch, all anchored
at `^` (the first one is an optional group, flattened with an empty last
alternative). -/
def visionP1 : RPat := [[cL "can you "], [cL "please "], [cL "could you "], []]

def visionP2 : RPat :=
  [ [cL "what do you see"], [cL "analyze", .dotStar, cL "image"],
    [cL "describe", .dotStar, cL "image"], [cL "look at"] ]

def visionP3 : RPat := [[cL "in this image"], [cL "in the image"]]

/-- News topic patterns: `news about\s+(.+)`, `latest.*news.*on\s+(.+)`,
`(.+)\s+news`. -/
def newsPs : List RPat :=
  [ [ [cL "news about", .wsPlus, .capPlus notNl] ],
    [ [cL "latest", .dotStar, cL "news", .dotStar, cL "on", .wsPlus, .capPlus notNl] ],
    [ [.capPlus notNl, .wsPlus, cL "news"] ] ]

/-- Files path patterns: `files in\s+(.+)`, `list files.*in\s+(.+)`,
`show.*files.*from\s+(.+)`. -/
def filesPs : List RPat :=
  [ [ [cL "files in", .wsPlus, .capPlus notNl] ],
    [ [cL "list files", .dotStar, cL "in", .wsPlus, .capPlus notNl] ],
    [ [cL "show", .dotStar, cL "files", .dotStar, cL "from", .wsPlus, .capPlus notNl] ] ]

/-- First pattern in an ordered list whose `re.search` succeeds with a
capture (the `for pattern in patterns: ... break` idiom). -/
def firstCap : List RPat → List Char → Option (List Char)
  | [], _ => none
  | p :: ps, l =>
    match reCap p l with
    | some c => some c
    | none => firstCap ps l

/-- `_extract_parameters` (`workflow.py` lines 90-189): returns the kwargs
dict built for the detected intent.  All matching is done on the
lower-cased input except the calculator branch (which searches the raw
input) and the vision branch (`re.IGNORECASE` subs on the raw input). -/
def extract_parameters (user_input : String) (intent : Intent) : List (String × String) :=
  let low := lowerL user_input.data
  match intent with
  | .weather =>
      let city :=
        match reCap weatherCityP low with
        | some c => String.mk (trimL c)
        | none => "Jaipur"
      [("city", city), ("original_query", user_input)]
  | .search =>
      let q :=
        match firstCap searchPs low with
        | some c => String.mk (trimL c)
        | none => String.mk (trimL user_input.data)
      [("query", q), ("original_query", user_input)]
  | .calculator =>
      let e :=
        match reCap calcP user_input.data with
        | some c => String.mk (trimL c)
        | none => String.mk (trimL user_input.data)
      [("expression", e), ("original_query", user_input)]
  | .vision =>
      let c1 := trimL (anchoredStrip visionP1 user_input.data)
      let c2 := trimL (anchoredStrip visionP2 c1)
      let c3 := trimL (anchoredStrip visionP3 c2)
      let q := if 3 < c3.length then String.mk c3 else "What do you see in this image?"
      [("query", q), ("original_query", user_input)]
  | .news =>
      (match firstCap newsPs low with
       | some t => [("topic", String.mk (trimL t))]
       | none => []) ++ [("original_query", user_input)]
  | .files =>
      (match firstCap filesPs low with
       | some p => [("path", String.mk (trimL p))]
       | none => []) ++ [("original_query", user_input)]
  | .time => [("original_query", user_input)]
  | .system => [("original_query", user_input)]

/-!
## Turn State and environment

`AgentState` mirrors the `AgentState` TypedDict of `workflow.py` (plus the
`tts_service_used` key that `_text_to_speech_node` adds at run time).
`TurnEnv` packages the outcome of every external call a single turn can
make; `Except.error msg` models the call raising an exception whose
`str()` is `msg`.
-/

inductive Msg where
  | human (content : String)
  | ai (content : String)
deriving DecidableEq, Repr

structure AgentState where
  messages : List Msg
  chat_history : List (String × String)
  audio_file : String
  current_user_input : String
  current_response : String
  error_message : Option String
  session_active : Bool
  processing_audio : Bool
  detected_intent : Option Intent
  tool_results : Option String
  needs_tool_execution : Bool
  tts_service_used : Option String
deriving DecidableEq, Repr

structure TurnEnv where
  /-- `record_audio(file_path=...)` -/
  recording : Except String Unit
  /-- `transcribe_audio(audio_filepath)` -/
  transcription : Except String String
  /-- `ask_agent(user_query=context)` as a function of the prompt -/
  agent : String → Except String String
  /-- `text_to_speech_with_eleven_lab(...)` -/
  ttsPrimary : Except String Unit
  /-- `text_to_speech_with_gtts(...)` -/
  ttsSecondary : Except String Unit
  /-- `VisionTool.analyze_image(query)` -/
  vision : String → String
  /-- `WeatherTool.get_current_weather(city, country)` -/
  weather : String → Option String → String
  /-- `WeatherTool.get_weather_forecast(city, days)` -/
  forecast : String → String → String
  /-- `SearchTool.search_web(query)` -/
  searchWeb : String → String
  /-- `SearchTool.get_news_headlines(topic)` -/
  newsHeadlines : String → String
  /-- `SystemTool.get_system_info()` -/
  systemInfo : String
  /-- `SystemTool.get_current_time()` -/
  timeNow : String
  /-- `CalculatorTool.calculate(expression)` (its `eval` call makes it
  effectively external to this embedding) -/
  calcEval : String → String
  /-- `FileManagerTool.list_files(directory)` -/
  listFiles : String → String
  /-- `FileManagerTool.read_file(filename)` -/
  readFileText : String → String
  /-- `SystemTool.set_reminder(message, minutes)` -/
  reminder : String → String → String

/-- `ToolRegistry.execute_tool` (`tools.py` lines 348-407): dispatch on the
tool name, reading parameters out of `kwargs` with the defaults of the
source.  Note the `"files"` branch reads `kwargs.get("directory", ".")`. -/
def execute_tool (env : TurnEnv) (tool_name : String) (kwargs : List (String × String)) : String :=
  if tool_name = "vision" then
    env.vision (getKw kwargs "query" "What do you see in this image?")
  else if tool_name = "weather" then
    env.weather (getKw kwargs "city" "London") (findKw kwargs "country")
  else if tool_name = "forecast" then
    env.forecast (getKw kwargs "city" "London") (getKw kwargs "days" "3")
  else if tool_name = "search" then
    let query := getKw kwargs "query" ""
    if ¬ strTruthy query then "Please provide a search query" else env.searchWeb query
  else if tool_name = "news" then
    env.newsHeadlines (getKw kwargs "topic" "technology")
  else if tool_name = "system" then
    env.systemInfo
  else if tool_name = "time" then
    env.timeNow
  else if tool_name = "calculator" then
    let expression := getKw kwargs "expression" ""
    if ¬ strTruthy expression then "Please provide a mathematical expression"
    else env.calcEval expression
  else if tool_name = "files" then
    env.listFiles (getKw kwargs "directory" ".")
  else if tool_name = "read_file" then
    let filename := getKw kwargs "filename" ""
    if ¬ strTruthy filename then "Please provide a filename" else env.readFileText filename
  else if tool_name = "reminder" then
    env.reminder (getKw kwargs "message" "") (getKw kwargs "minutes" "5")
  else
    "Unknown tool '" ++ tool_name ++
      "'. Available tools: vision, weather, search, news, system, calculator, files, reminder"

/-!
## Pipeline stage nodes  (`workflow.py` lines 243-465)
-/

/-- `_audio_recording_node`. -/
def audio_recording_node (env : TurnEnv) (s : AgentState) : AgentState :=
  match env.recording with
  | .ok _ => { s with processing_audio := true, error_message := none }
  | .error e =>
      { s with error_message := some ("Audio recording error: " ++ e),
               processing_audio := false }

/-- `_transcription_node`: transcribe if a recording completed, store the
text, append the user message, and deactivate the session when the
lower-cased transcript contains `"goodbye"`. -/
def transcription_node (env : TurnEnv) (s : AgentState) : AgentState :=
  if s.processing_audio then
    match env.transcription with
    | .ok user_input =>
        let s1 := { s with current_user_input := user_input,
                           messages := s.messages ++ [Msg.human user_input] }
        if hasSub "goodbye".data (lowerL user_input.data) then
          { s1 with session_active := false }
        else s1
    | .error e => { s with error_message := some ("Transcription error: " ++ e) }
  else s

/-- `_intent_detection_node`: when the input is non-empty, classify it and
set `needs_tool_execution` accordingly. -/
def intent_detection_node (s : AgentState) : AgentState :=
  if strTruthy s.current_user_input then
    let di := detect_intent s.current_user_input
    { s with detected_intent := di, needs_tool_execution := di.isSome }
  else s

/-- The tool-result text `_tool_execution_node` computes for a detected
intent: extract parameters, call the registry (dropping `original_query`
from the kwargs), and prefix the result with the original query when both
are truthy. -/
def tool_result_for (env : TurnEnv) (user_input : String) (intent : Intent) : String :=
  let params := extract_parameters user_input intent
  let kw := params.filter (fun p => p.1 ≠ "original_query")
  let result : String :=
    match intent with
    | .weather => execute_tool env "weather" kw
    | .search => execute_tool env "search" kw
    | .vision => execute_tool env "vision" kw
    | .news =>
        (match findKw kw "topic" with
         | some t => execute_tool env "news" [("topic", t)]
         | none => execute_tool env "news" [])
    | .time => execute_tool env "time" []
    | .system => execute_tool env "system" []
    | .calculator => execute_tool env "calculator" kw
    | .files =>
        (match findKw kw "path" with
         | some p => execute_tool env "files" [("path", p)]
         | none => execute_tool env "files" [])
  if strTruthy result ∧ strTruthy (getKw params "original_query" "") then
    "User asked: '" ++ getKw params "original_query" "" ++ "'\nTool result: " ++ result
  else result

/-- `_tool_execution_node`: when an intent was detected and the input is
non-empty, store the computed tool result. -/
def tool_execution_node (env : TurnEnv) (s : AgentState) : AgentState :=
  match s.detected_intent with
  | none => s
  | some intent =>
    if strTruthy s.current_user_input then
      { s with tool_results := some (tool_result_for env s.current_user_input intent) }
    else s

/-- The prompt `_ai_response_node` sends to the agent: the raw user input,
or the tool-results template when `tool_results` is truthy. -/
def aiContext (s : AgentState) : String :=
  if errTruthy s.tool_results then
    "User query: " ++ s.current_user_input ++ "\n\nTool results: " ++
      (s.tool_results.getD "") ++
      "\n\nPlease provide a natural response incorporating this information."
  else s.current_user_input

/-- `_ai_response_node`: when input is non-empty and the session is active,
build the prompt (embedding truthy tool results), call the agent, record
the response and append the `(user, response)` pair to the transcript. -/
def ai_response_node (env : TurnEnv) (s : AgentState) : AgentState :=
  if strTruthy s.current_user_input ∧ s.session_active then
    match env.agent (aiContext s) with
    | .ok response =>
        { s with current_response := response,
                 messages := s.messages ++ [Msg.ai response],
                 chat_history := s.chat_history ++ [(s.current_user_input, response)] }
    | .error e => { s with error_message := some ("AI response error: " ++ e) }
  else s

/-- Which synthesizers `_text_to_speech_node` actually invoked, in order. -/
inductive TtsCall where
  | primary | secondary
deriving DecidableEq, Repr

/-- The quota/authorization markers of `_text_to_speech_node`. -/
def quotaMarkers : List String :=
  ["quota", "limit", "credits", "exceeded", "401", "unauthorized"]

/-- `any(keyword in error_str.lower() for keyword in [...])`. -/
def isQuotaError (e : String) : Bool :=
  quotaMarkers.any (fun k => hasSub k.data (lowerL e.data))

/-- System notice appended on a successful gTTS fallback (the literal in
`workflow.py` is a mojibake-encoded emoji; reproduced byte-for-byte). -/
def gttsSwitchNotice : String :=
  "üîÑ Switched to Google TTS due to ElevenLabs quota limit"

/-- System notice appended when both synthesizers fail. -/
def ttsUnavailableNotice : String :=
  "üîá Audio output unavailable. Continuing with text-only responses."

/-- `_text_to_speech_node` (`workflow.py` lines 376-434): try ElevenLabs;
on a quota/auth-marked failure fall back to gTTS, appending a system
notice on fallback success and an unavailability notice plus
`error_message` when both fail; a primary failure without a marker sets
`error_message` directly.  Also returns the list of synthesizer calls
made, for stating which providers were attempted. -/
def text_to_speech_node (env : TurnEnv) (s : AgentState) : AgentState × List TtsCall :=
  if strTruthy s.current_response then
    match env.ttsPrimary with
    | .ok _ => ({ s with tts_service_used := some "elevenlabs" }, [.primary])
    | .error elevenlabs_error =>
      if isQuotaError elevenlabs_error then
        match env.ttsSecondary with
        | .ok _ =>
            ({ s with tts_service_used := some "gtts",
                      chat_history := s.chat_history ++ [("System", gttsSwitchNotice)] },
             [.primary, .secondary])
        | .error gtts_error =>
            ({ s with
                error_message := some ("TTS error: Both TTS services failed - ElevenLabs: " ++
                  elevenlabs_error ++ ", gTTS: " ++ gtts_error),
                chat_history := s.chat_history ++ [("System", ttsUnavailableNotice)] },
             [.primary, .secondary])
      else
        ({ s with error_message := some ("TTS error: " ++ elevenlabs_error) }, [.primary])
  else (s, [])

/-- `_should_use_tools` (Branch A). -/
def should_use_tools (s : AgentState) : String :=
  if errTruthy s.error_message then "error"
  else if s.needs_tool_execution then "use_tools"
  else "direct_response"

/-- `_should_continue` (Branch B). -/
def should_continue (s : AgentState) : String :=
  if ¬ s.session_active then "end"
  else if errTruthy s.error_message then "error_handler"
  else "end"

/-- `_error_handler_node`: append the error transcript entry, then clear
the error, the recording flag and the tool flag. -/
def error_handler_node (s : AgentState) : AgentState :=
  let text :=
    match s.error_message with
    | some m => "Error: " ++ m
    | none => "Error: None"
  { s with chat_history := s.chat_history ++ [("System", text)],
           error_message := none,
           processing_audio := false,
           needs_tool_execution := false }

/-- `create_initial_state`. -/
def create_initial_state (chat_history : List (String × String)) : AgentState :=
  { messages := []
    chat_history := chat_history
    audio_file := "audio_question.mp3"
    current_user_input := ""
    current_response := ""
    error_message := none
    session_active := true
    processing_audio := false
    detected_intent := none
    tool_results := none
    needs_tool_execution := false
    tts_service_used := none }

/-- Stage names of the compiled graph, for execution traces. -/
inductive Stage where
  | record | transcribe | intent | toolExec | ai | tts | errorHandler
deriving DecidableEq, Repr

/-- The Turn State as it reaches Branch A (after `record_audio` →
`transcribe` → `intent_detection`). -/
def stateAtBranchA (env : TurnEnv) (s0 : AgentState) : AgentState :=
  intent_detection_node (transcription_node env (audio_recording_node env s0))

/-- The Turn State as it reaches Branch B (after the optional
`tool_execution`, then `ai_response` and `text_to_speech`), assuming
Branch A did not divert to the error handler. -/
def stateAtBranchB (env : TurnEnv) (s0 : AgentState) : AgentState :=
  let s3 := stateAtBranchA env s0
  let s4 := if should_use_tools s3 = "use_tools" then tool_execution_node env s3 else s3
  (text_to_speech_node env (ai_response_node env s4)).1

/-- The compiled graph of `_create_workflow`, as executed by
`EnhancedAIAssistantWorkflow.invoke`: the linear chain with Branch A after
intent detection and Branch B after text-to-speech, both able to divert to
the terminal `error_handler`.  Returns the final Turn State together with
the list of visited stages. -/
def invoke (env : TurnEnv) (s0 : AgentState) : AgentState × List Stage :=
  let s3 := stateAtBranchA env s0
  if should_use_tools s3 = "error" then
    (error_handler_node s3, [.record, .transcribe, .intent, .errorHandler])
  else
    let mid : List Stage :=
      if should_use_tools s3 = "use_tools" then [.toolExec, .ai, .tts] else [.ai, .tts]
    let s6 := stateAtBranchB env s0
    if should_continue s6 = "error_handler" then
      (error_handler_node s6, [.record, .transcribe, .intent] ++ mid ++ [.errorHandler])
    else
      (s6, [.record, .transcribe, .intent] ++ mid)

/-!
## Session Driver  (`chat_manager.py`)
-/

/-- The driver-level state of `EnhancedChatManager`. -/
structure Driver where
  chat_history : List (String × String)
  is_processing : Bool
  session_active : Bool
  tools_enabled : Bool
  last_intent : Option Intent
  conversation_count : Nat
deriving DecidableEq, Repr

/-- The closing system message appended when a turn ends the session. -/
def sessionEndedMsg : String :=
  "👋 Session ended. Say 'hello' or restart to begin again!"

/-- `process_audio_cycle` (`chat_manager.py` lines 23-61): single-flight
guard, run one pipeline execution on a fresh Turn State seeded with the
cumulative history, fold the resulting transcript back (Python truthiness:
an empty final history is not copied), remember the detected intent, and
when the turn deactivated the session, deactivate the driver and append
the closing message. -/
def process_audio_cycle (d : Driver) (env : TurnEnv) : Driver :=
  if d.is_processing then d
  else
    let final := (invoke env (create_initial_state d.chat_history)).1
    let d1 :=
      if final.chat_history ≠ [] then
        { d with chat_history := final.chat_history,
                 conversation_count := final.chat_history.length }
      else d
    let d2 :=
      match final.detected_intent with
      | some i => { d1 with last_intent := some i }
      | none => d1
    if ¬ final.session_active then
      { d2 with session_active := false,
                chat_history := d2.chat_history ++ [("System", sessionEndedMsg)] }
    else d2

/-- One iteration's outcome in `continuous_audio_processing`: either the
turn runs (with the external outcomes `env`), or the iteration raises an
uncaught fault with message `msg` (the `except` branch of the loop). -/
inductive CycleOutcome where
  | run (env : TurnEnv)
  | fault (msg : String)

/-- `f"🔄 Processing error (attempt {retry_count}/{max_retries}): {e}"` -/
def retryMsg (r : Nat) (e : String) : String :=
  "🔄 Processing error (attempt " ++ toString r ++ "/3): " ++ e

/-- The terminal message after the retry budget is exhausted. -/
def maxRetriesMsg : String :=
  "❌ Maximum retry attempts reached. Please restart the session."

/-- The `while self.session_active and retry_count < max_retries` loop of
`continuous_audio_processing` (`chat_manager.py` lines 86-122), driven by
a finite schedule of iteration outcomes.  Returns the list of yielded
chat-history snapshots and the final driver state.  A successful iteration
yields the updated history and resets the retry counter to `0`, breaking
if the session went inactive; a faulted iteration appends and yields the
retry message, and on the third consecutive fault appends the terminal
message, deactivates the session, yields once more and stops. -/
def continuous_loop (d : Driver) (retry : Nat) :
    List CycleOutcome → List (List (String × String)) × Driver
  | [] => ([], d)
  | o :: rest =>
    if d.session_active ∧ retry < 3 then
      match o with
      | .run env =>
        let d1 := process_audio_cycle d env
        if d1.session_active then
          let next := continuous_loop d1 0 rest
          (d1.chat_history :: next.1, next.2)
        else ([d1.chat_history], d1)
      | .fault e =>
        let r1 := retry + 1
        let d1 := { d with chat_history := d.chat_history ++ [("System", retryMsg r1 e)] }
        if 3 ≤ r1 then
          let d2 := { d1 with chat_history := d1.chat_history ++ [("System", maxRetriesMsg)],
                              session_active := false }
          ([d1.chat_history, d2.chat_history], d2)
        else
          let next := continuous_loop d1 r1 rest
          (d1.chat_history :: next.1, next.2)
    else ([], d)

/-- `toggle_tools` (`chat_manager.py` lines 167-173): flip the flag and
append a system message; nothing else reads the flag. -/
def toggle_tools (d : Driver) : Driver × String :=
  let enabled := ! d.tools_enabled
  let status := if enabled then "enabled" else "disabled"
  let message := "🛠️ Tools are now " ++ status
  ({ d with tools_enabled := enabled,
            chat_history := d.chat_history ++ [("System", message)] },
   message)

/-- The tool table of `ToolRegistry.get_available_tools` (8 entries). -/
def available_tools_desc : List (String × String) :=
  [ ("vision", "Analyze images from webcam with AI vision"),
    ("weather", "Get current weather and forecasts"),
    ("search", "Search the internet for information"),
    ("news", "Get latest news headlines"),
    ("system", "Get system information and current time"),
    ("calculator", "Perform mathematical calculations"),
    ("files", "List and read files"),
    ("reminder", "Set simple reminders") ]

/-- `str.title()` on a single lowercase word. -/
def titleWord (s : String) : String :=
  match s.data with
  | [] => ""
  | c :: t => String.mk (Char.ofNat (c.toNat - 32) :: t)

/-- `get_available_tools_info` (`workflow.py` lines 514-531); the emoji
literals of the source are mojibake-encoded and reproduced verbatim. -/
def get_available_tools_info : String :=
  "üõ†Ô∏è Available AI Assistant Tools:\n\n" ++
  String.join (available_tools_desc.map
    (fun td => "‚Ä¢ **" ++ titleWord td.1 ++ "**: " ++ td.2 ++ "\n")) ++
  "\nüí° **Usage Examples**:\n" ++
  "‚Ä¢ 'What's the weather in New York?'\n" ++
  "‚Ä¢ 'Search for Python tutorials'\n" ++
  "‚Ä¢ 'What do you see?' (uses camera)\n" ++
  "‚Ä¢ 'Calculate 25 * 4 + 10'\n" ++
  "‚Ä¢ 'What time is it?'\n" ++
  "‚Ä¢ 'Show me system information'\n" ++
  "‚Ä¢ 'Get latest technology news'\n"

/-- The restart welcome f-string of `restart_session`, parameterised by the
`self.conversation_count` value interpolated into it. -/
def restartWelcome (conversation_count : Nat) : String :=
  "\n🔄 **Session Restarted Successfully!**\n\n🛠️ **Available Tools**: " ++
  toString available_tools_desc.length ++
  " tools ready\n📊 **Previous Conversations**: " ++
  toString conversation_count ++
  " messages processed\n\n" ++
  get_available_tools_info ++
  "\n\nReady for your next question! 🎤\n        "

/-- `restart_session` (`chat_manager.py` lines 144-165): reactivate the
session, reset the processing flag and counters, clear the history, then
compose the welcome message — reading `self.conversation_count` after it
was reset — and append it. -/
def restart_session (d : Driver) : Driver × String :=
  let d1 := { d with session_active := true, is_processing := false,
                     conversation_count := 0, last_intent := none,
                     chat_history := [] }
  let welcome := restartWelcome d1.conversation_count
  ({ d1 with chat_history := d1.chat_history ++ [("System", welcome)] },
   "✅ Session restarted with enhanced capabilities!")


/-!
## Frame lemmas: fields each stage leaves untouched
-/

@[simp] theorem audio_recording_frame_chat_history (env : TurnEnv) (s : AgentState) :
    (audio_recording_node env s).chat_history = s.chat_history := by
  dsimp only [audio_recording_node]
  repeat' split
  all_goals rfl

@[simp] theorem audio_recording_frame_current_user_input (env : TurnEnv) (s : AgentState) :
    (audio_recording_node env s).current_user_input = s.current_user_input := by
  dsimp only [audio_recording_node]
  repeat' split
  all_goals rfl

@[simp] theorem audio_recording_frame_current_response (env : TurnEnv) (s : AgentState) :
    (audio_recording_node env s).current_response = s.current_response := by
  dsimp only [audio_recording_node]
  repeat' split
  all_goals rfl

@[simp] theorem audio_recording_frame_session_active (env : TurnEnv) (s : AgentState) :
    (audio_recording_node env s).session_active = s.session_active := by
  dsimp only [audio_recording_node]
  repeat' split
  all_goals rfl

@[simp] theorem audio_recording_frame_detected_intent (env : TurnEnv) (s : AgentState) :
    (audio_recording_node env s).detected_intent = s.detected_intent := by
  dsimp only [audio_recording_node]
  repeat' split
  all_goals rfl

@[simp] theorem audio_recording_frame_needs_tool_execution (env : TurnEnv) (s : AgentState) :
    (audio_recording_node env s).needs_tool_execution = s.needs_tool_execution := by
  dsimp only [audio_recording_node]
  repeat' split
  all_goals rfl

@[simp] theorem audio_recording_frame_tool_results (env : TurnEnv) (s : AgentState) :
    (audio_recording_node env s).tool_results = s.tool_results := by
  dsimp only [audio_recording_node]
  repeat' split
  all_goals rfl

@[simp] theorem transcription_frame_chat_history (env : TurnEnv) (s : AgentState) :
    (transcription_node env s).chat_history = s.chat_history := by
  dsimp only [transcription_node]
  repeat' split
  all_goals rfl

@[simp] theorem transcription_frame_current_response (env : TurnEnv) (s : AgentState) :
    (transcription_node env s).current_response = s.current_response := by
  dsimp only [transcription_node]
  repeat' split
  all_goals rfl

@[simp] theorem transcription_frame_detected_intent (env : TurnEnv) (s : AgentState) :
    (transcription_node env s).detected_intent = s.detected_intent := by
  dsimp only [transcription_node]
  repeat' split
  all_goals rfl

@[simp] theorem transcription_frame_needs_tool_execution (env : TurnEnv) (s : AgentState) :
    (transcription_node env s).needs_tool_execution = s.needs_tool_execution := by
  dsimp only [transcription_node]
  repeat' split
  all_goals rfl

@[simp] theorem transcription_frame_tool_results (env : TurnEnv) (s : AgentState) :
    (transcription_node env s).tool_results = s.tool_results := by
  dsimp only [transcription_node]
  repeat' split
  all_goals rfl

@[simp] theorem transcription_frame_processing_audio (env : TurnEnv) (s : AgentState) :
    (transcription_node env s).processing_audio = s.processing_audio := by
  dsimp only [transcription_node]
  repeat' split
  all_goals rfl

@[simp] theorem intent_detection_frame_chat_history (s : AgentState) :
    (intent_detection_node s).chat_history = s.chat_history := by
  dsimp only [intent_detection_node]
  repeat' split
  all_goals rfl

@[simp] theorem intent_detection_frame_current_user_input (s : AgentState) :
    (intent_detection_node s).current_user_input = s.current_user_input := by
  dsimp only [intent_detection_node]
  repeat' split
  all_goals rfl

@[simp] theorem intent_detection_frame_current_response (s : AgentState) :
    (intent_detection_node s).current_response = s.current_response := by
  dsimp only [intent_detection_node]
  repeat' split
  all_goals rfl

@[simp] theorem intent_detection_frame_session_active (s : AgentState) :
    (intent_detection_node s).session_active = s.session_active := by
  dsimp only [intent_detection_node]
  repeat' split
  all_goals rfl

@[simp] theorem intent_detection_frame_error_message (s : AgentState) :
    (intent_detection_node s).error_message = s.error_message := by
  dsimp only [intent_detection_node]
  repeat' split
  all_goals rfl

@[simp] theorem intent_detection_frame_tool_results (s : AgentState) :
    (intent_detection_node s).tool_results = s.tool_results := by
  dsimp only [intent_detection_node]
  repeat' split
  all_goals rfl

@[simp] theorem intent_detection_frame_processing_audio (s : AgentState) :
    (intent_detection_node s).processing_audio = s.processing_audio := by
  dsimp only [intent_detection_node]
  repeat' split
  all_goals rfl

@[simp] theorem tool_execution_frame_chat_history (env : TurnEnv) (s : AgentState) :
    (tool_execution_node env s).chat_history = s.chat_history := by
  dsimp only [tool_execution_node]
  repeat' split
  all_goals rfl

@[simp] theorem tool_execution_frame_error_message (env : TurnEnv) (s : AgentState) :
    (tool_execution_node env s).error_message = s.error_message := by
  dsimp only [tool_execution_node]
  repeat' split
  all_goals rfl

@[simp] theorem tool_execution_frame_session_active (env : TurnEnv) (s : AgentState) :
    (tool_execution_node env s).session_active = s.session_active := by
  dsimp only [tool_execution_node]
  repeat' split
  all_goals rfl

@[simp] theorem tool_execution_frame_current_user_input (env : TurnEnv) (s : AgentState) :
    (tool_execution_node env s).current_user_input = s.current_user_input := by
  dsimp only [tool_execution_node]
  repeat' split
  all_goals rfl

@[simp] theorem tool_execution_frame_current_response (env : TurnEnv) (s : AgentState) :
    (tool_execution_node env s).current_response = s.current_response := by
  dsimp only [tool_execution_node]
  repeat' split
  all_goals rfl

@[simp] theorem tool_execution_frame_detected_intent (env : TurnEnv) (s : AgentState) :
    (tool_execution_node env s).detected_intent = s.detected_intent := by
  dsimp only [tool_execution_node]
  repeat' split
  all_goals rfl

@[simp] theorem tool_execution_frame_needs_tool_execution (env : TurnEnv) (s : AgentState) :
    (tool_execution_node env s).needs_tool_execution = s.needs_tool_execution := by
  dsimp only [tool_execution_node]
  repeat' split
  all_goals rfl

@[simp] theorem ai_response_frame_session_active (env : TurnEnv) (s : AgentState) :
    (ai_response_node env s).session_active = s.session_active := by
  dsimp only [ai_response_node]
  repeat' split
  all_goals rfl

@[simp] theorem ai_response_frame_current_user_input (env : TurnEnv) (s : AgentState) :
    (ai_response_node env s).current_user_input = s.current_user_input := by
  dsimp only [ai_response_node]
  repeat' split
  all_goals rfl

@[simp] theorem ai_response_frame_tool_results (env : TurnEnv) (s : AgentState) :
    (ai_response_node env s).tool_results = s.tool_results := by
  dsimp only [ai_response_node]
  repeat' split
  all_goals rfl

@[simp] theorem ai_response_frame_detected_intent (env : TurnEnv) (s : AgentState) :
    (ai_response_node env s).detected_intent = s.detected_intent := by
  dsimp only [ai_response_node]
  repeat' split
  all_goals rfl

@[simp] theorem ai_response_frame_needs_tool_execution (env : TurnEnv) (s : AgentState) :
    (ai_response_node env s).needs_tool_execution = s.needs_tool_execution := by
  dsimp only [ai_response_node]
  repeat' split
  all_goals rfl

@[simp] theorem ai_response_frame_processing_audio (env : TurnEnv) (s : AgentState) :
    (ai_response_node env s).processing_audio = s.processing_audio := by
  dsimp only [ai_response_node]
  repeat' split
  all_goals rfl

@[simp] theorem tts_frame_session_active (env : TurnEnv) (s : AgentState) :
    ((text_to_speech_node env s).1).session_active = s.session_active := by
  dsimp only [text_to_speech_node]
  repeat' split
  all_goals rfl

@[simp] theorem tts_frame_current_user_input (env : TurnEnv) (s : AgentState) :
    ((text_to_speech_node env s).1).current_user_input = s.current_user_input := by
  dsimp only [text_to_speech_node]
  repeat' split
  all_goals rfl

@[simp] theorem tts_frame_current_response (env : TurnEnv) (s : AgentState) :
    ((text_to_speech_node env s).1).current_response = s.current_response := by
  dsimp only [text_to_speech_node]
  repeat' split
  all_goals rfl

@[simp] theorem tts_frame_tool_results (env : TurnEnv) (s : AgentState) :
    ((text_to_speech_node env s).1).tool_results = s.tool_results := by
  dsimp only [text_to_speech_node]
  repeat' split
  all_goals rfl

@[simp] theorem tts_frame_detected_intent (env : TurnEnv) (s : AgentState) :
    ((text_to_speech_node env s).1).detected_intent = s.detected_intent := by
  dsimp only [text_to_speech_node]
  repeat' split
  all_goals rfl

@[simp] theorem tts_frame_needs_tool_execution (env : TurnEnv) (s : AgentState) :
    ((text_to_speech_node env s).1).needs_tool_execution = s.needs_tool_execution := by
  dsimp only [text_to_speech_node]
  repeat' split
  all_goals rfl

@[simp] theorem error_handler_frame_session_active (s : AgentState) :
    (error_handler_node s).session_active = s.session_active := rfl

@[simp] theorem error_handler_frame_current_user_input (s : AgentState) :
    (error_handler_node s).current_user_input = s.current_user_input := rfl

@[simp] theorem error_handler_frame_current_response (s : AgentState) :
    (error_handler_node s).current_response = s.current_response := rfl

@[simp] theorem error_handler_frame_tool_results (s : AgentState) :
    (error_handler_node s).tool_results = s.tool_results := rfl

@[simp] theorem error_handler_frame_detected_intent (s : AgentState) :
    (error_handler_node s).detected_intent = s.detected_intent := rfl

/-!
## Claim theorems
-/

set_option maxRecDepth 10000

/-- C1: for every Turn State reaching the intent_detection stage in a turn
started from `create_initial_state`, immediately after that stage runs,
`needs_tool_execution` is true iff `detected_intent` is not `None` —
including the empty-input case where the stage leaves both fields at their
initial values. -/
theorem c1_needs_tool_iff_intent (env : TurnEnv) (hist : List (String × String)) :
    (stateAtBranchA env (create_initial_state hist)).needs_tool_execution
      = (stateAtBranchA env (create_initial_state hist)).detected_intent.isSome := by
  unfold stateAtBranchA intent_detection_node
  split
  · rfl
  · simp [create_initial_state]

/-- A concrete environment for witnesses: every external call succeeds. -/
def sampleEnv : TurnEnv :=
  { recording := .ok ()
    transcription := .ok "hello there"
    agent := fun _ => .ok "hi!"
    ttsPrimary := .ok ()
    ttsSecondary := .ok ()
    vision := fun _ => "V"
    weather := fun _ _ => "W"
    forecast := fun _ _ => "F"
    searchWeb := fun _ => "S"
    newsHeadlines := fun _ => "N"
    systemInfo := "SYS"
    timeNow := "12:00"
    calcEval := fun _ => "C"
    listFiles := fun dir => "LS:" ++ dir
    readFileText := fun _ => "R"
    reminder := fun _ _ => "REM" }

/-- A concrete idle driver state for witnesses. -/
def sampleDriver : Driver :=
  { chat_history := [], is_processing := false, session_active := true,
    tools_enabled := true, last_intent := none, conversation_count := 0 }

/-- C3: in the text_to_speech stage, a primary failure whose message
carries a quota/authorization marker triggers the secondary synthesizer,
and on the secondary's success exactly one system notice about the
fallback is appended to `chat_history`; a primary failure without a marker
makes no secondary attempt and sets `error_message` directly. -/
theorem c3_tts_fallback (s : AgentState) (env : TurnEnv) (e : String)
    (hresp : strTruthy s.current_response = true)
    (hfail : env.ttsPrimary = .error e) :
    (isQuotaError e = true →
      (text_to_speech_node env s).2 = [TtsCall.primary, TtsCall.secondary] ∧
      (env.ttsSecondary = .ok () →
        (text_to_speech_node env s).1.chat_history
            = s.chat_history ++ [("System", gttsSwitchNotice)] ∧
        (text_to_speech_node env s).1.error_message = s.error_message))
    ∧ (isQuotaError e = false →
      (text_to_speech_node env s).2 = [TtsCall.primary] ∧
      (text_to_speech_node env s).1.error_message = some ("TTS error: " ++ e) ∧
      (text_to_speech_node env s).1.chat_history = s.chat_history) := by
  unfold text_to_speech_node
  rw [hfail]
  simp only [hresp, if_true]
  constructor
  · intro hq
    simp only [hq, if_true]
    cases hsec : env.ttsSecondary with
    | error g => simp [hsec]
    | ok u => simp [hsec]
  · intro hq
    simp [hq]

/-- Turn state entering the TTS stage in the C3 witness. -/
def c3State : AgentState := { create_initial_state [] with current_response := "hi!" }

/-- Environment of the C3 witness: ElevenLabs rejects with a quota error,
gTTS succeeds. -/
def c3Env : TurnEnv := { sampleEnv with ttsPrimary := .error "quota exceeded" }

/-- Witness for C3 at a concrete quota failure. -/
theorem c3_tts_fallback_witness :
    (text_to_speech_node c3Env c3State).2 = [TtsCall.primary, TtsCall.secondary] ∧
    (text_to_speech_node c3Env c3State).1.chat_history
        = [] ++ [("System", gttsSwitchNotice)] ∧
    (text_to_speech_node c3Env c3State).1.error_message = none :=
  ⟨((c3_tts_fallback c3State c3Env "quota exceeded" (by decide) rfl).1 (by decide)).1,
   (((c3_tts_fallback c3State c3Env "quota exceeded" (by decide) rfl).1 (by decide)).2 rfl).1,
   (((c3_tts_fallback c3State c3Env "quota exceeded" (by decide) rfl).1 (by decide)).2 rfl).2⟩

/-- C10: `restart_session` resets the conversation counter to zero before
composing the welcome message, so the message always reports zero previous
conversations, whatever the prior count was; the history becomes exactly
that one system entry and the session is reactivated. -/
theorem c10_restart_reports_zero (d : Driver) :
    (restart_session d).1.chat_history = [("System", restartWelcome 0)] ∧
    (restart_session d).1.conversation_count = 0 ∧
    (restart_session d).1.session_active = true ∧
    (restart_session d).2 = "✅ Session restarted with enhanced capabilities!" :=
  ⟨rfl, rfl, rfl, rfl⟩

/-!
## C7: calculator parameter extraction
-/

/-- Characterization of the matcher in capture-extension state for the
single-capture pattern: it greedily consumes the maximal `f`-run and then
closes the capture. -/
theorem matchAux_capGo (f : Char → Bool) :
    ∀ (l acc : List Char),
      matchAux (l.length + 2) [.capGo f acc] l none
        = some (some (acc ++ l.takeWhile f), l.dropWhile f)
  | [], acc => by
      rw [matchAux.eq_def]
      dsimp only
      rw [matchAux.eq_def]
      simp [oElse]
  | c :: t, acc => by
      have ih := matchAux_capGo f t (acc ++ [c])
      show matchAux (t.length + 2 + 1) [.capGo f acc] (c :: t) none = _
      rw [matchAux.eq_def]
      dsimp only
      by_cases h : f c
      · rw [if_pos h, ih]
        simp [oElse, h]
      · rw [if_neg h]
        rw [matchAux.eq_def]
        simp [oElse, h]

/-- Anchored match of the bare pattern `([cls]+)`: succeeds exactly when the
first character is in the class, capturing the maximal run. -/
theorem matchAux_capPlus_cons (f : Char → Bool) (c : Char) (t : List Char) :
    matchAux (reFuel [CAtom.capPlus f] (c :: t)) [CAtom.capPlus f] (c :: t) none
      = if f c then some (some ((c :: t).takeWhile f), (c :: t).dropWhile f) else none := by
  have hfuel : reFuel [CAtom.capPlus f] (c :: t) = t.length + 2 + 1 := by
    simp [reFuel, patW]
    omega
  rw [hfuel, matchAux.eq_def]
  dsimp only
  by_cases h : f c
  · rw [if_pos h, matchAux_capGo f t [c]]
    simp [h, List.takeWhile_cons, List.dropWhile_cons]
  · rw [if_neg h, if_neg h]

/-- `re.search` of the bare single-capture pattern `([cls]+)` finds the
leftmost maximal run of class characters. -/
theorem reSearch_capPlus (f : Char → Bool) :
    ∀ l : List Char,
      reSearch [[.capPlus f]] l
        = (match l.dropWhile (fun c => ! f c) with
           | [] => none
           | c :: t => some (some ((c :: t).takeWhile f), (c :: t).dropWhile f))
  | [] => by
      simp [reSearch, matchAlt, oElse, reFuel, patW, matchAux]
  | c :: t => by
      rw [reSearch]
      by_cases h : f c
      · simp [matchAlt, oElse, matchAux_capPlus_cons, List.dropWhile_cons, h]
      · have ih := reSearch_capPlus f t
        simp [matchAlt, oElse, matchAux_capPlus_cons, List.dropWhile_cons, h, ih]

/-- Head of `dropWhile p` fails `p`. -/
theorem dropWhile_head_false (p : Char → Bool) :
    ∀ (l : List Char) (c : Char), (l.dropWhile p).head? = some c → p c = false
  | [], c => by simp
  | a :: t, c => by
      by_cases h : p a
      · simpa [List.dropWhile_cons, h] using dropWhile_head_false p t c
      · simp [List.dropWhile_cons, h]
        rintro rfl
        simpa using h

/-- The capture of `re.search` on `([cls]+)`: the leftmost maximal run. -/
theorem reCap_capPlus (f : Char → Bool) (l : List Char) :
    reCap [[.capPlus f]] l
      = (match l.dropWhile (fun c => ! f c) with
         | [] => none
         | c :: t => some ((c :: t).takeWhile f)) := by
  unfold reCap
  rw [reSearch_capPlus]
  cases l.dropWhile (fun c => ! f c) <;> simp

/-- Modelled from the spec's words "the longest contiguous run of
digits/operators/parentheses/whitespace": the maximal contiguous segments
of `f`-characters of a string. -/
def runsOf (f : Char → Bool) (l : List Char) : List (List Char) :=
  (l.foldr
    (fun c acc =>
      if f c then
        match acc with
        | [] => [[c]]
        | r :: rs => (c :: r) :: rs
      else [] :: acc)
    []).filter (fun r => ! r.isEmpty)

/-- Modelled from the spec's words: the longest of the contiguous runs
(first one on ties), `[]` when there is none. -/
def longestRunSpec (f : Char → Bool) (l : List Char) : List Char :=
  (runsOf f l).foldl (fun best r => if best.length < r.length then r else best) []

/-- Counterexample to C7 as stated: `"calculate 1 b 23+45"` is classified
as a calculator intent; the longest contiguous run of expression
characters is `"23+45"` (after stripping), but `_extract_parameters`
returns `"1"` — `re.search` takes the leftmost run, not the longest. -/
theorem c7_counterexample :
    detect_intent "calculate 1 b 23+45" = some Intent.calculator ∧
    String.mk (trimL (longestRunSpec calcClass ("calculate 1 b 23+45").data)) = "23+45" ∧
    getKw (extract_parameters "calculate 1 b 23+45" Intent.calculator) "expression" "" = "1" ∧
    ("1" : String) ≠ "23+45" := by
  refine ⟨by decide, by decide, by decide, by decide⟩

/-- C7 (amended): for an input with at least one expression-class
character, the extracted calculator expression is the stripped *leftmost*
maximal contiguous run of digits/operators/parentheses/decimal
points/whitespace (not the longest); when the input has no such character
the extraction falls back to the stripped raw input. -/
theorem c7_calculator_extraction_amended (input : String) :
    ((∃ c ∈ input.data, calcClass c = true) →
      ∃ pre run post,
        input.data = pre ++ run ++ post ∧ run ≠ [] ∧
        (∀ c ∈ run, calcClass c = true) ∧
        (∀ c ∈ pre, calcClass c = false) ∧
        (∀ c, post.head? = some c → calcClass c = false) ∧
        getKw (extract_parameters input Intent.calculator) "expression" ""
          = String.mk (trimL run))
    ∧ ((∀ c ∈ input.data, calcClass c = false) →
        getKw (extract_parameters input Intent.calculator) "expression" ""
          = String.mk (trimL input.data)) := by
  constructor
  · rintro ⟨c, hc, hcc⟩
    have hne : input.data.dropWhile (fun c => ! calcClass c) ≠ [] := by
      rw [Ne, List.dropWhile_eq_nil_iff]
      intro hall
      have := hall c hc
      simp [hcc] at this
    obtain ⟨d, t, hdt⟩ := List.exists_cons_of_ne_nil hne
    have hd : calcClass d = true := by
      have hh := dropWhile_head_false (fun c => ! calcClass c) input.data d
      rw [hdt] at hh
      have := hh (by simp)
      simpa using this
    refine ⟨input.data.takeWhile (fun c => ! calcClass c),
            (d :: t).takeWhile calcClass, (d :: t).dropWhile calcClass, ?_, ?_, ?_, ?_, ?_, ?_⟩
    · rw [List.append_assoc, List.takeWhile_append_dropWhile, ← hdt,
          List.takeWhile_append_dropWhile]
    · simp [List.takeWhile_cons, hd]
    · intro x hx; exact List.mem_takeWhile_imp hx
    · intro x hx
      have := List.mem_takeWhile_imp hx
      simpa using this
    · intro x hx; exact dropWhile_head_false calcClass (d :: t) x hx
    · have hcap : reCap calcP input.data = some ((d :: t).takeWhile calcClass) := by
        unfold calcP
        rw [reCap_capPlus, hdt]
      have hex : extract_parameters input Intent.calculator
          = [("expression", String.mk (trimL ((d :: t).takeWhile calcClass))),
             ("original_query", input)] := by
        unfold extract_parameters
        dsimp only
        rw [hcap]
      rw [hex]
      rfl
  · intro hall
    have hnil : input.data.dropWhile (fun c => ! calcClass c) = [] := by
      rw [List.dropWhile_eq_nil_iff]
      intro x hx
      simp [hall x hx]
    have hcap : reCap calcP input.data = none := by
      unfold calcP
      rw [reCap_capPlus, hnil]
    have hex : extract_parameters input Intent.calculator
        = [("expression", String.mk (trimL input.data)), ("original_query", input)] := by
      unfold extract_parameters
      dsimp only
      rw [hcap]
    rw [hex]
    rfl

/-- Witness for the amended C7 at the concrete input `"2+3"`. -/
theorem c7_calculator_extraction_amended_witness :
    ∃ pre run post,
      ("2+3" : String).data = pre ++ run ++ post ∧ run ≠ [] ∧
      (∀ c ∈ run, calcClass c = true) ∧
      (∀ c ∈ pre, calcClass c = false) ∧
      (∀ c, post.head? = some c → calcClass c = false) ∧
      getKw (extract_parameters "2+3" Intent.calculator) "expression" ""
        = String.mk (trimL run) :=
  (c7_calculator_extraction_amended "2+3").1 ⟨'2', by decide, by decide⟩

/-!
## C2: stage failures always reach the error handler
-/

/-- Skipped ai_response leaves the state unchanged. -/
theorem ai_response_skip (env : TurnEnv) (s : AgentState)
    (h : ¬ (strTruthy s.current_user_input = true ∧ s.session_active = true)) :
    ai_response_node env s = s := by
  unfold ai_response_node
  rw [if_neg h]

/-- Skipped text_to_speech leaves the state unchanged and calls nothing. -/
theorem tts_skip (env : TurnEnv) (s : AgentState)
    (h : strTruthy s.current_response = false) :
    text_to_speech_node env s = (s, []) := by
  unfold text_to_speech_node
  rw [if_neg (by simp [h])]

/-- If the state entering ai_response has an empty response and no truthy
error, then any truthy error at Branch B implies the session is active
there. -/
theorem branchB_error_implies_active (env : TurnEnv) (s4 : AgentState)
    (hresp : s4.current_response = "")
    (herr : errTruthy s4.error_message = false)
    (herrB : errTruthy ((text_to_speech_node env (ai_response_node env s4)).1).error_message = true) :
    ((text_to_speech_node env (ai_response_node env s4)).1).session_active = true := by
  by_cases hg : strTruthy s4.current_user_input = true ∧ s4.session_active = true
  · rw [tts_frame_session_active, ai_response_frame_session_active]
    exact hg.2
  · rw [ai_response_skip env s4 hg] at herrB ⊢
    rw [tts_skip env s4 (by rw [strTruthy, hresp]; decide)] at herrB ⊢
    simp [herr] at herrB

theorem c2_error_reaches_error_handler (env : TurnEnv) (hist : List (String × String)) :
    (errTruthy (stateAtBranchA env (create_initial_state hist)).error_message = true ∨
      (errTruthy (stateAtBranchA env (create_initial_state hist)).error_message = false ∧
       errTruthy (stateAtBranchB env (create_initial_state hist)).error_message = true)) →
    Stage.errorHandler ∈ (invoke env (create_initial_state hist)).2 ∧
    ∃ m, ((stateAtBranchA env (create_initial_state hist)).error_message = some m ∨
          (stateAtBranchB env (create_initial_state hist)).error_message = some m) ∧
      (invoke env (create_initial_state hist)).1.chat_history.getLast?
        = some ("System", "Error: " ++ m) := by
  intro hcase
  rcases hcase with hA | ⟨hA, hB⟩
  · have hsw : should_use_tools (stateAtBranchA env (create_initial_state hist)) = "error" := by
      unfold should_use_tools
      rw [hA]
      rfl
    have hinv : invoke env (create_initial_state hist)
        = (error_handler_node (stateAtBranchA env (create_initial_state hist)),
           [.record, .transcribe, .intent, .errorHandler]) := by
      unfold invoke
      rw [if_pos hsw]
    cases hm : (stateAtBranchA env (create_initial_state hist)).error_message with
    | none => rw [hm] at hA; simp [errTruthy] at hA
    | some m =>
      constructor
      · rw [hinv]
        simp
      · refine ⟨m, Or.inl rfl, ?_⟩
        rw [hinv]
        simp only [error_handler_node, hm]
        rw [List.getLast?_concat]
  · have hswn : ¬ should_use_tools (stateAtBranchA env (create_initial_state hist)) = "error" := by
      unfold should_use_tools
      rw [hA]
      intro hcon
      split at hcon
      · simp_all
      · split at hcon <;> simp_all
  -- facts about the state entering ai_response
    have hAresp : (stateAtBranchA env (create_initial_state hist)).current_response = "" := by
      simp [stateAtBranchA, create_initial_state]
    have hresp4 :
        (if should_use_tools (stateAtBranchA env (create_initial_state hist)) = "use_tools"
         then tool_execution_node env (stateAtBranchA env (create_initial_state hist))
         else stateAtBranchA env (create_initial_state hist)).current_response = "" := by
      split <;> simp [hAresp]
    have herr4 :
        errTruthy (if should_use_tools (stateAtBranchA env (create_initial_state hist)) = "use_tools"
         then tool_execution_node env (stateAtBranchA env (create_initial_state hist))
         else stateAtBranchA env (create_initial_state hist)).error_message = false := by
      split <;> simp [hA]
    have hBdef : stateAtBranchB env (create_initial_state hist)
        = (text_to_speech_node env (ai_response_node env
            (if should_use_tools (stateAtBranchA env (create_initial_state hist)) = "use_tools"
             then tool_execution_node env (stateAtBranchA env (create_initial_state hist))
             else stateAtBranchA env (create_initial_state hist)))).1 := rfl
    have hact : (stateAtBranchB env (create_initial_state hist)).session_active = true := by
      rw [hBdef]
      refine branchB_error_implies_active env _ hresp4 herr4 ?_
      rw [← hBdef]
      exact hB
    have hsc : should_continue (stateAtBranchB env (create_initial_state hist)) = "error_handler" := by
      unfold should_continue
      rw [hact, hB]
      rfl
    have hinv : invoke env (create_initial_state hist)
        = (error_handler_node (stateAtBranchB env (create_initial_state hist)),
           [.record, .transcribe, .intent] ++
             (if should_use_tools (stateAtBranchA env (create_initial_state hist)) = "use_tools"
              then [Stage.toolExec, Stage.ai, Stage.tts] else [Stage.ai, Stage.tts]) ++
             [.errorHandler]) := by
      unfold invoke
      rw [if_neg hswn, if_pos hsc]
    cases hm : (stateAtBranchB env (create_initial_state hist)).error_message with
    | none => rw [hm] at hB; simp [errTruthy] at hB
    | some m =>
      constructor
      · rw [hinv]
        simp
      · refine ⟨m, Or.inr rfl, ?_⟩
        rw [hinv]
        simp only [error_handler_node, hm]
        rw [List.getLast?_concat]

/-- Environment of the C2 witness: transcription raises. -/
def c2Env : TurnEnv := { sampleEnv with transcription := .error "mic broken" }

/-- Witness for C2: a concrete transcription failure reaches the error
handler and leaves the error transcript entry. -/
theorem c2_error_reaches_error_handler_witness :
    errTruthy (stateAtBranchA c2Env (create_initial_state [])).error_message = true ∧
    (Stage.errorHandler ∈ (invoke c2Env (create_initial_state [])).2 ∧
     ∃ m, ((stateAtBranchA c2Env (create_initial_state [])).error_message = some m ∨
           (stateAtBranchB c2Env (create_initial_state [])).error_message = some m) ∧
       (invoke c2Env (create_initial_state [])).1.chat_history.getLast?
         = some ("System", "Error: " ++ m)) :=
  ⟨by decide, c2_error_reaches_error_handler c2Env [] (Or.inl (by decide))⟩

/-!
## C4: the retry budget of the session loop
-/

/-- The four transcript snapshots of a three-fault run. -/
def threeFaultHists (d : Driver) (a b c : String) : List (List (String × String)) :=
  [d.chat_history ++ [("System", retryMsg 1 a)],
   d.chat_history ++ [("System", retryMsg 1 a), ("System", retryMsg 2 b)],
   d.chat_history ++ [("System", retryMsg 1 a), ("System", retryMsg 2 b),
                      ("System", retryMsg 3 c)],
   d.chat_history ++ [("System", retryMsg 1 a), ("System", retryMsg 2 b),
                      ("System", retryMsg 3 c), ("System", maxRetriesMsg)]]

/-- The driver state after a three-fault run. -/
def threeFaultDriver (d : Driver) (a b c : String) : Driver :=
  { d with
    chat_history := d.chat_history ++ [("System", retryMsg 1 a), ("System", retryMsg 2 b),
                                       ("System", retryMsg 3 c), ("System", maxRetriesMsg)],
    session_active := false }

theorem loop_three_faults (d : Driver) (a b c : String) (rest : List CycleOutcome)
    (hact : d.session_active = true) :
    continuous_loop d 0 (.fault a :: .fault b :: .fault c :: rest)
      = (threeFaultHists d a b c, threeFaultDriver d a b c) := by
  simp [continuous_loop, hact, threeFaultHists, threeFaultDriver, List.append_assoc]

/-- C4: in the session loop, after exactly 3 consecutive faulted
iterations (starting from a reset counter) the driver appends the two
final system messages, deactivates the session, yields the termination
snapshot as the last of exactly 4 yields, and ignores any further
scheduled iterations; a successful iteration resets the consecutive
failure counter, so from any counter value below the budget a success
followed by the 3 faults still yields all 5 snapshots before stopping. -/
theorem c4_retry_budget (d : Driver) (a b c : String) (rest : List CycleOutcome)
    (env : TurnEnv) (r : Nat) (hact : d.session_active = true) (hr : r < 3) :
    (continuous_loop d 0 (.fault a :: .fault b :: .fault c :: rest)).1.length = 4 ∧
    (continuous_loop d 0 (.fault a :: .fault b :: .fault c :: rest)).2.session_active = false ∧
    (continuous_loop d 0 (.fault a :: .fault b :: .fault c :: rest)).2.chat_history
      = d.chat_history ++ [("System", retryMsg 1 a), ("System", retryMsg 2 b),
                           ("System", retryMsg 3 c), ("System", maxRetriesMsg)] ∧
    continuous_loop d 0 (.fault a :: .fault b :: .fault c :: rest)
      = continuous_loop d 0 [.fault a, .fault b, .fault c] ∧
    (continuous_loop d 0 (.fault a :: .fault b :: .fault c :: rest)).1.getLast?
      = some (continuous_loop d 0 (.fault a :: .fault b :: .fault c :: rest)).2.chat_history ∧
    ((process_audio_cycle d env).session_active = true →
      (continuous_loop d r (.run env :: .fault a :: .fault b :: .fault c :: rest)).1.length = 5 ∧
      (continuous_loop d r (.run env :: .fault a :: .fault b :: .fault c :: rest)).2.session_active
        = false) := by
  have h3 := loop_three_faults d a b c rest hact
  have h3nil := loop_three_faults d a b c [] hact
  refine ⟨?_, ?_, ?_, ?_, ?_, ?_⟩
  · rw [h3]; rfl
  · rw [h3]; rfl
  · rw [h3]; rfl
  · rw [h3, h3nil]
  · rw [h3]; rfl
  · intro hd1
    have hstep : continuous_loop d r (.run env :: .fault a :: .fault b :: .fault c :: rest)
        = ((process_audio_cycle d env).chat_history ::
            (continuous_loop (process_audio_cycle d env) 0
              (.fault a :: .fault b :: .fault c :: rest)).1,
           (continuous_loop (process_audio_cycle d env) 0
              (.fault a :: .fault b :: .fault c :: rest)).2) := by
      rw [continuous_loop]
      simp [hact, hr, hd1]
    rw [hstep, loop_three_faults (process_audio_cycle d env) a b c rest hd1]
    constructor
    · rfl
    · rfl

/-- Witness for C4 at a concrete driver and fault schedule. -/
theorem c4_retry_budget_witness :
    (continuous_loop sampleDriver 0
        [CycleOutcome.fault "x", CycleOutcome.fault "y", CycleOutcome.fault "z"]).1.length = 4 ∧
    (continuous_loop sampleDriver 0
        [CycleOutcome.fault "x", CycleOutcome.fault "y", CycleOutcome.fault "z"]).2.session_active
      = false :=
  ⟨(c4_retry_budget sampleDriver "x" "y" "z" [] sampleEnv 0 (by decide) (by decide)).1,
   (c4_retry_budget sampleDriver "x" "y" "z" [] sampleEnv 0 (by decide) (by decide)).2.1⟩

/-!
## C5: the goodbye exit phrase
-/

/-- C5: when the recording succeeds and transcription produces an input
whose lowercase form contains "goodbye", the turn ends with
`session_active = false`, the Session Driver appends the closing system
message after the turn, and the session loop stops after that turn
regardless of any further scheduled iterations. -/
theorem c5_goodbye_ends_session (env : TurnEnv) (d : Driver) (t : String)
    (rest : List CycleOutcome) (r : Nat)
    (hrec : env.recording = .ok ())
    (htr : env.transcription = .ok t)
    (hbye : hasSub "goodbye".data (lowerL t.data) = true)
    (hproc : d.is_processing = false)
    (hact : d.session_active = true) (hr : r < 3) :
    (invoke env (create_initial_state d.chat_history)).1.session_active = false ∧
    (process_audio_cycle d env).session_active = false ∧
    (process_audio_cycle d env).chat_history
      = d.chat_history ++ [("System", sessionEndedMsg)] ∧
    continuous_loop d r (.run env :: rest)
      = ([(process_audio_cycle d env).chat_history], process_audio_cycle d env) := by
  set s0 := create_initial_state d.chat_history with hs0def
  have hrec1 : audio_recording_node env s0
      = { s0 with processing_audio := true, error_message := none } := by
    unfold audio_recording_node
    rw [hrec]
  have htr1 : transcription_node env (audio_recording_node env s0)
      = { s0 with processing_audio := true, error_message := none,
                  current_user_input := t, messages := s0.messages ++ [Msg.human t],
                  session_active := false } := by
    rw [hrec1]
    unfold transcription_node
    simp [htr, hbye]
  have hAsess : (stateAtBranchA env s0).session_active = false := by
    unfold stateAtBranchA
    rw [intent_detection_frame_session_active, htr1]
  have hAerr : (stateAtBranchA env s0).error_message = none := by
    unfold stateAtBranchA
    rw [intent_detection_frame_error_message, htr1]
  have hAhist : (stateAtBranchA env s0).chat_history = d.chat_history := by
    unfold stateAtBranchA
    rw [intent_detection_frame_chat_history, htr1]
    rfl
  have hAresp : (stateAtBranchA env s0).current_response = "" := by
    unfold stateAtBranchA
    rw [intent_detection_frame_current_response, htr1]
    rfl
  have hswn : ¬ should_use_tools (stateAtBranchA env s0) = "error" := by
    unfold should_use_tools
    rw [hAerr]
    intro hcon
    split at hcon
    · simp_all [errTruthy]
    · split at hcon <;> simp_all
  set s4 := (if should_use_tools (stateAtBranchA env s0) = "use_tools"
             then tool_execution_node env (stateAtBranchA env s0)
             else stateAtBranchA env s0) with hs4def
  have hs4sess : s4.session_active = false := by
    rw [hs4def]
    split
    · rw [tool_execution_frame_session_active]; exact hAsess
    · exact hAsess
  have hs4resp : s4.current_response = "" := by
    rw [hs4def]
    split
    · rw [tool_execution_frame_current_response]; exact hAresp
    · exact hAresp
  have hs4hist : s4.chat_history = d.chat_history := by
    rw [hs4def]
    split
    · rw [tool_execution_frame_chat_history]; exact hAhist
    · exact hAhist
  have hskip5 : ai_response_node env s4 = s4 :=
    ai_response_skip env s4 (by rw [hs4sess]; simp)
  have hskip6 : text_to_speech_node env s4 = (s4, []) :=
    tts_skip env s4 (by rw [strTruthy, hs4resp]; decide)
  have hBeq : stateAtBranchB env s0 = s4 := by
    show (text_to_speech_node env (ai_response_node env s4)).1 = s4
    rw [hskip5, hskip6]
  have hsc : should_continue (stateAtBranchB env s0) = "end" := by
    unfold should_continue
    rw [hBeq, hs4sess]
    rfl
  have hinv : invoke env s0 = (stateAtBranchB env s0,
      [.record, .transcribe, .intent] ++
        (if should_use_tools (stateAtBranchA env s0) = "use_tools"
         then [Stage.toolExec, Stage.ai, Stage.tts] else [Stage.ai, Stage.tts])) := by
    unfold invoke
    rw [if_neg hswn, if_neg (by rw [hsc]; decide)]
  have hfinsess : (invoke env s0).1.session_active = false := by
    rw [hinv]
    show (stateAtBranchB env s0).session_active = false
    rw [hBeq]
    exact hs4sess
  have hfinhist : (invoke env s0).1.chat_history = d.chat_history := by
    rw [hinv]
    show (stateAtBranchB env s0).chat_history = d.chat_history
    rw [hBeq]
    exact hs4hist
  have hcycsess : (process_audio_cycle d env).session_active = false := by
    unfold process_audio_cycle
    rw [hproc]
    simp only [Bool.false_eq_true, if_false]
    rw [← hs0def]
    simp [hfinsess]
  have hcychist : (process_audio_cycle d env).chat_history
      = d.chat_history ++ [("System", sessionEndedMsg)] := by
    unfold process_audio_cycle
    rw [hproc]
    simp only [Bool.false_eq_true, if_false]
    rw [← hs0def]
    simp only [hfinsess, hfinhist]
    cases hdi : (invoke env s0).1.detected_intent <;>
      by_cases hh : d.chat_history = [] <;>
        simp [hdi, hh, hfinhist]
  refine ⟨hfinsess, hcycsess, hcychist, ?_⟩
  rw [continuous_loop]
  simp [hact, hr, hcycsess]

/-- Environment of the C5 witness: the user says goodbye. -/
def c5Env : TurnEnv := { sampleEnv with transcription := .ok "Goodbye now" }

/-- Witness for C5 at a concrete goodbye transcript. -/
theorem c5_goodbye_ends_session_witness :
    (invoke c5Env (create_initial_state sampleDriver.chat_history)).1.session_active = false ∧
    (process_audio_cycle sampleDriver c5Env).session_active = false ∧
    (process_audio_cycle sampleDriver c5Env).chat_history
      = sampleDriver.chat_history ++ [("System", sessionEndedMsg)] ∧
    continuous_loop sampleDriver 0 [.run c5Env]
      = ([(process_audio_cycle sampleDriver c5Env).chat_history],
         process_audio_cycle sampleDriver c5Env) :=
  c5_goodbye_ends_session c5Env sampleDriver "Goodbye now" [] 0
    rfl rfl (by decide) rfl rfl (by decide)

/-!
## C8 and C9: tool gating and the files-path kwarg
-/

theorem intent_detection_sets_detected (s : AgentState)
    (h : strTruthy s.current_user_input = true) :
    (intent_detection_node s).detected_intent = detect_intent s.current_user_input := by
  unfold intent_detection_node
  rw [if_pos h]

theorem intent_detection_sets_needs (s : AgentState)
    (h : strTruthy s.current_user_input = true) :
    (intent_detection_node s).needs_tool_execution
      = (detect_intent s.current_user_input).isSome := by
  unfold intent_detection_node
  rw [if_pos h]

theorem tool_execution_sets (env : TurnEnv) (s : AgentState) (intent : Intent)
    (hdet : s.detected_intent = some intent)
    (hinp : strTruthy s.current_user_input = true) :
    tool_execution_node env s
      = { s with tool_results := some (tool_result_for env s.current_user_input intent) } := by
  unfold tool_execution_node
  rw [hdet]
  dsimp only
  rw [if_pos hinp]

theorem exec_time (env : TurnEnv) : execute_tool env "time" [] = env.timeNow := by
  simp [execute_tool]

theorem tool_result_time (env : TurnEnv) (htime : strTruthy env.timeNow = true) :
    tool_result_for env "what time is it" Intent.time
      = "User asked: 'what time is it'\nTool result: " ++ env.timeNow := by
  unfold tool_result_for
  rw [show extract_parameters "what time is it" Intent.time
        = [("original_query", "what time is it")] from by decide]
  dsimp only
  rw [exec_time]
  rw [if_pos ⟨htime, by decide⟩]
  rw [show ("User asked: '" ++ getKw [("original_query", "what time is it")] "original_query" ""
        ++ "'\nTool result: ") = "User asked: 'what time is it'\nTool result: " from by decide]

set_option maxHeartbeats 1000000 in
/-- C8 (bug exhibit): `toggle_tools` turns the driver flag off, yet the
pipeline still executes the tool for an intent-bearing input — the turn
run on the toggled driver's history sets `tool_results` to the time tool's
output, because no stage consults `tools_enabled`. -/
theorem c8_tools_flag_not_consulted (d : Driver) (env : TurnEnv)
    (henabled : d.tools_enabled = true)
    (hrec : env.recording = .ok ())
    (htr : env.transcription = .ok "what time is it")
    (htime : strTruthy env.timeNow = true) :
    ((toggle_tools d).1).tools_enabled = false ∧
    (invoke env (create_initial_state ((toggle_tools d).1).chat_history)).1.tool_results
      = some ("User asked: 'what time is it'\nTool result: " ++ env.timeNow) := by
  constructor
  · unfold toggle_tools
    rw [henabled]
    rfl
  · set s0 := create_initial_state ((toggle_tools d).1).chat_history with hs0def
    have hrec1 : audio_recording_node env s0
        = { s0 with processing_audio := true, error_message := none } := by
      unfold audio_recording_node
      rw [hrec]
    have htr1 : transcription_node env (audio_recording_node env s0)
        = { s0 with processing_audio := true, error_message := none,
                    current_user_input := "what time is it",
                    messages := s0.messages ++ [Msg.human "what time is it"] } := by
      rw [hrec1]
      unfold transcription_node
      simp [htr, show hasSub "goodbye".data (lowerL "what time is it".data) = false from by decide]
    have hTinp : (transcription_node env (audio_recording_node env s0)).current_user_input
        = "what time is it" := by rw [htr1]
    have hAdet : (stateAtBranchA env s0).detected_intent = some Intent.time := by
      unfold stateAtBranchA
      rw [intent_detection_sets_detected _ (by rw [hTinp]; decide), hTinp]
      decide
    have hAinp : (stateAtBranchA env s0).current_user_input = "what time is it" := by
      unfold stateAtBranchA
      rw [intent_detection_frame_current_user_input, hTinp]
    have hAerr : (stateAtBranchA env s0).error_message = none := by
      unfold stateAtBranchA
      rw [intent_detection_frame_error_message, htr1]
    have hs4tools : (tool_execution_node env (stateAtBranchA env s0)).tool_results
        = some ("User asked: 'what time is it'\nTool result: " ++ env.timeNow) := by
      rw [tool_execution_sets env _ Intent.time hAdet (by rw [hAinp]; decide)]
      dsimp only
      rw [hAinp, tool_result_time env htime]
    have hAneeds : (stateAtBranchA env s0).needs_tool_execution = true := by
      unfold stateAtBranchA
      rw [intent_detection_sets_needs _ (by rw [hTinp]; decide), hTinp]
      decide
    have hsw : should_use_tools (stateAtBranchA env s0) = "use_tools" := by
      unfold should_use_tools
      rw [hAerr, hAneeds]
      rfl
    have hBtools : (stateAtBranchB env s0).tool_results
        = some ("User asked: 'what time is it'\nTool result: " ++ env.timeNow) := by
      dsimp only [stateAtBranchB]
      rw [if_pos hsw, tts_frame_tool_results, ai_response_frame_tool_results]
      exact hs4tools
    have hswn : ¬ should_use_tools (stateAtBranchA env s0) = "error" := by
      rw [hsw]
      decide
    unfold invoke
    rw [if_neg hswn]
    dsimp only
    split
    · rw [error_handler_frame_tool_results]
      exact hBtools
    · exact hBtools

theorem exec_files_reads_directory_kw (env : TurnEnv) :
    execute_tool env "files" [("path", "/tmp")] = env.listFiles "." := by
  simp [execute_tool, getKw, findKw]

theorem tool_result_files (env : TurnEnv) (hlist : strTruthy (env.listFiles ".") = true) :
    tool_result_for env "list files in /tmp" Intent.files
      = "User asked: 'list files in /tmp'\nTool result: " ++ env.listFiles "." := by
  unfold tool_result_for
  rw [show extract_parameters "list files in /tmp" Intent.files
        = [("path", "/tmp"), ("original_query", "list files in /tmp")] from by decide]
  dsimp only
  rw [show ([("path", "/tmp"), ("original_query", "list files in /tmp")].filter
        (fun p => p.1 ≠ "original_query")) = [("path", "/tmp")] from by decide]
  rw [show findKw [("path", "/tmp")] "path" = some "/tmp" from by decide]
  dsimp only
  rw [exec_files_reads_directory_kw]
  rw [if_pos ⟨hlist, by decide⟩]
  rw [show ("User asked: '" ++
        getKw [("path", "/tmp"), ("original_query", "list files in /tmp")] "original_query" ""
        ++ "'\nTool result: ") = "User asked: 'list files in /tmp'\nTool result: " from by decide]

set_option maxHeartbeats 1000000 in
/-- C9 (bug exhibit): for the files intent with a "files in X" phrase, the
workflow extracts `path = "/tmp"` and passes it as the `path` kwarg, but
`ToolRegistry.execute_tool` reads `kwargs.get("directory", ".")`, so the
file-listing tool is invoked on "." — the current directory — for every
environment, not on the extracted directory. -/
theorem c9_files_path_ignored (hist : List (String × String)) (env : TurnEnv)
    (hrec : env.recording = .ok ())
    (htr : env.transcription = .ok "list files in /tmp")
    (hlist : strTruthy (env.listFiles ".") = true) :
    findKw (extract_parameters "list files in /tmp" Intent.files) "path" = some "/tmp" ∧
    execute_tool env "files" [("path", "/tmp")] = env.listFiles "." ∧
    (invoke env (create_initial_state hist)).1.tool_results
      = some ("User asked: 'list files in /tmp'\nTool result: " ++ env.listFiles ".") := by
  refine ⟨by decide, exec_files_reads_directory_kw env, ?_⟩
  set s0 := create_initial_state hist with hs0def
  have hrec1 : audio_recording_node env s0
      = { s0 with processing_audio := true, error_message := none } := by
    unfold audio_recording_node
    rw [hrec]
  have htr1 : transcription_node env (audio_recording_node env s0)
      = { s0 with processing_audio := true, error_message := none,
                  current_user_input := "list files in /tmp",
                  messages := s0.messages ++ [Msg.human "list files in /tmp"] } := by
    rw [hrec1]
    unfold transcription_node
    simp [htr,
      show hasSub "goodbye".data (lowerL "list files in /tmp".data) = false from by decide]
  have hTinp : (transcription_node env (audio_recording_node env s0)).current_user_input
      = "list files in /tmp" := by rw [htr1]
  have hAdet : (stateAtBranchA env s0).detected_intent = some Intent.files := by
    unfold stateAtBranchA
    rw [intent_detection_sets_detected _ (by rw [hTinp]; decide), hTinp]
    decide
  have hAinp : (stateAtBranchA env s0).current_user_input = "list files in /tmp" := by
    unfold stateAtBranchA
    rw [intent_detection_frame_current_user_input, hTinp]
  have hAerr : (stateAtBranchA env s0).error_message = none := by
    unfold stateAtBranchA
    rw [intent_detection_frame_error_message, htr1]
  have hs4tools : (tool_execution_node env (stateAtBranchA env s0)).tool_results
      = some ("User asked: 'list files in /tmp'\nTool result: " ++ env.listFiles ".") := by
    rw [tool_execution_sets env _ Intent.files hAdet (by rw [hAinp]; decide)]
    dsimp only
    rw [hAinp, tool_result_files env hlist]
  have hAneeds : (stateAtBranchA env s0).needs_tool_execution = true := by
    unfold stateAtBranchA
    rw [intent_detection_sets_needs _ (by rw [hTinp]; decide), hTinp]
    decide
  have hsw : should_use_tools (stateAtBranchA env s0) = "use_tools" := by
    unfold should_use_tools
    rw [hAerr, hAneeds]
    rfl
  have hBtools : (stateAtBranchB env s0).tool_results
      = some ("User asked: 'list files in /tmp'\nTool result: " ++ env.listFiles ".") := by
    dsimp only [stateAtBranchB]
    rw [if_pos hsw, tts_frame_tool_results, ai_response_frame_tool_results]
    exact hs4tools
  have hswn : ¬ should_use_tools (stateAtBranchA env s0) = "error" := by
    rw [hsw]
    decide
  unfold invoke
  rw [if_neg hswn]
  dsimp only
  split
  · rw [error_handler_frame_tool_results]
    exact hBtools
  · exact hBtools

/-- Environment of the C8 witness. -/
def c8Env : TurnEnv := { sampleEnv with transcription := .ok "what time is it" }

/-- Witness for C8 at a concrete toggled driver. -/
theorem c8_tools_flag_not_consulted_witness :
    ((toggle_tools sampleDriver).1).tools_enabled = false ∧
    (invoke c8Env (create_initial_state ((toggle_tools sampleDriver).1).chat_history)).1.tool_results
      = some ("User asked: 'what time is it'\nTool result: " ++ c8Env.timeNow) :=
  c8_tools_flag_not_consulted sampleDriver c8Env rfl rfl rfl (by decide)

/-- Environment of the C9 witness. -/
def c9Env : TurnEnv := { sampleEnv with transcription := .ok "list files in /tmp" }

/-- Witness for C9 at a concrete environment. -/
theorem c9_files_path_ignored_witness :
    findKw (extract_parameters "list files in /tmp" Intent.files) "path" = some "/tmp" ∧
    execute_tool c9Env "files" [("path", "/tmp")] = c9Env.listFiles "." ∧
    (invoke c9Env (create_initial_state [])).1.tool_results
      = some ("User asked: 'list files in /tmp'\nTool result: " ++ c9Env.listFiles ".") :=
  c9_files_path_ignored [] c9Env rfl rfl (by decide)

/-!
## C6: transcript growth per turn
-/

theorem errTruthy_append_left (a b : String) (h : errTruthy (some a) = true) :
    errTruthy (some (a ++ b)) = true := by
  simp only [errTruthy, Bool.not_eq_eq_eq_not, Bool.not_true, Bool.eq_false_iff, Ne,
    String.isEmpty_iff] at h ⊢
  intro hc
  apply h
  have hd : (a ++ b).data = ([] : List Char) := by rw [hc]
  rw [String.data_append] at hd
  have := (List.append_eq_nil.mp hd).1
  cases a
  simp_all

/-- The tail of the turn after Branch A chose the non-error route:
`ai_response`, `text_to_speech`, then Branch B. -/
def finish_turn (env : TurnEnv) (s4 : AgentState) : AgentState :=
  let s6 := (text_to_speech_node env (ai_response_node env s4)).1
  if should_continue s6 = "error_handler" then error_handler_node s6 else s6

set_option maxHeartbeats 1000000 in
theorem invoke_finish (env : TurnEnv) (s0 : AgentState)
    (h : ¬ should_use_tools (stateAtBranchA env s0) = "error") :
    (invoke env s0).1
      = finish_turn env (if should_use_tools (stateAtBranchA env s0) = "use_tools"
                         then tool_execution_node env (stateAtBranchA env s0)
                         else stateAtBranchA env s0) := by
  unfold invoke finish_turn
  rw [if_neg h]
  dsimp only [stateAtBranchB]
  split <;> split <;> rfl

theorem finish_turn_session (env : TurnEnv) (s4 : AgentState) :
    (finish_turn env s4).session_active = s4.session_active := by
  unfold finish_turn
  dsimp only
  split <;>
    simp [error_handler_frame_session_active, tts_frame_session_active,
      ai_response_frame_session_active]

theorem finish_turn_inactive (env : TurnEnv) (s4 : AgentState)
    (hresp : s4.current_response = "") (hsess : s4.session_active = false) :
    finish_turn env s4 = s4 := by
  have hskip5 : ai_response_node env s4 = s4 :=
    ai_response_skip env s4 (by rw [hsess]; simp)
  have hskip6 : text_to_speech_node env s4 = (s4, []) :=
    tts_skip env s4 (by rw [strTruthy, hresp]; decide)
  have hne : ¬ should_continue s4 = "error_handler" := by
    unfold should_continue
    rw [hsess]
    simp
  unfold finish_turn
  dsimp only
  rw [hskip5, hskip6]
  dsimp only
  rw [if_neg hne]

theorem branchA_error_active (env : TurnEnv) (hist : List (String × String))
    (h : errTruthy (stateAtBranchA env (create_initial_state hist)).error_message = true) :
    (stateAtBranchA env (create_initial_state hist)).session_active = true := by
  unfold stateAtBranchA at h ⊢
  rw [intent_detection_frame_session_active]
  rw [intent_detection_frame_error_message] at h
  unfold transcription_node audio_recording_node at h ⊢
  cases hrec : env.recording <;> cases htr : env.transcription
  · simp_all [create_initial_state, errTruthy]
  · simp_all [create_initial_state, errTruthy]
  · simp_all [create_initial_state, errTruthy]
  · simp_all [create_initial_state, errTruthy]
    rw [apply_ite AgentState.error_message] at h
    simp at h

theorem ai_response_ok (env : TurnEnv) (s : AgentState) (r : String)
    (hg : strTruthy s.current_user_input = true ∧ s.session_active = true)
    (hag : env.agent (aiContext s) = .ok r) :
    ai_response_node env s
      = { s with current_response := r, messages := s.messages ++ [Msg.ai r],
                 chat_history := s.chat_history ++ [(s.current_user_input, r)] } := by
  unfold ai_response_node
  rw [if_pos hg, hag]

theorem ai_response_err (env : TurnEnv) (s : AgentState) (e : String)
    (hg : strTruthy s.current_user_input = true ∧ s.session_active = true)
    (hag : env.agent (aiContext s) = .error e) :
    ai_response_node env s = { s with error_message := some ("AI response error: " ++ e) } := by
  unfold ai_response_node
  rw [if_pos hg, hag]

theorem tts_primary_ok (env : TurnEnv) (s : AgentState) (u : Unit)
    (hr : strTruthy s.current_response = true) (hp : env.ttsPrimary = .ok u) :
    text_to_speech_node env s = ({ s with tts_service_used := some "elevenlabs" }, [.primary]) := by
  unfold text_to_speech_node
  rw [if_pos hr, hp]

theorem tts_fallback_ok (env : TurnEnv) (s : AgentState) (e : String) (u : Unit)
    (hr : strTruthy s.current_response = true) (hp : env.ttsPrimary = .error e)
    (hq : isQuotaError e = true) (hs : env.ttsSecondary = .ok u) :
    text_to_speech_node env s
      = ({ s with tts_service_used := some "gtts",
                  chat_history := s.chat_history ++ [("System", gttsSwitchNotice)] },
         [.primary, .secondary]) := by
  unfold text_to_speech_node
  rw [if_pos hr, hp]
  dsimp only
  rw [if_pos hq, hs]

theorem tts_both_fail (env : TurnEnv) (s : AgentState) (e g : String)
    (hr : strTruthy s.current_response = true) (hp : env.ttsPrimary = .error e)
    (hq : isQuotaError e = true) (hs : env.ttsSecondary = .error g) :
    text_to_speech_node env s
      = ({ s with error_message := some ("TTS error: Both TTS services failed - ElevenLabs: "
                    ++ e ++ ", gTTS: " ++ g),
                  chat_history := s.chat_history ++ [("System", ttsUnavailableNotice)] },
         [.primary, .secondary]) := by
  unfold text_to_speech_node
  rw [if_pos hr, hp]
  dsimp only
  rw [if_pos hq, hs]

theorem tts_nonquota (env : TurnEnv) (s : AgentState) (e : String)
    (hr : strTruthy s.current_response = true) (hp : env.ttsPrimary = .error e)
    (hq : isQuotaError e = false) :
    text_to_speech_node env s
      = ({ s with error_message := some ("TTS error: " ++ e) }, [.primary]) := by
  unfold text_to_speech_node
  rw [if_pos hr, hp]
  dsimp only
  rw [if_neg (by rw [hq]; decide)]

theorem should_continue_end_of (s : AgentState)
    (hs : s.session_active = true) (he : errTruthy s.error_message = false) :
    should_continue s = "end" := by
  unfold should_continue
  rw [hs, he]
  simp

theorem should_continue_handler_of (s : AgentState)
    (hs : s.session_active = true) (he : errTruthy s.error_message = true) :
    should_continue s = "error_handler" := by
  unfold should_continue
  rw [hs, he]
  simp

theorem finish_turn_eq_end (env : TurnEnv) (s4 : AgentState)
    (h : ¬ should_continue ((text_to_speech_node env (ai_response_node env s4)).1)
        = "error_handler") :
    finish_turn env s4 = (text_to_speech_node env (ai_response_node env s4)).1 := by
  unfold finish_turn
  dsimp only
  rw [if_neg h]

theorem finish_turn_eq_handler (env : TurnEnv) (s4 : AgentState)
    (h : should_continue ((text_to_speech_node env (ai_response_node env s4)).1)
        = "error_handler") :
    finish_turn env s4
      = error_handler_node ((text_to_speech_node env (ai_response_node env s4)).1) := by
  unfold finish_turn
  dsimp only
  rw [if_pos h]

theorem finish_turn_active_append (env : TurnEnv) (s4 : AgentState)
    (hresp : s4.current_response = "")
    (herr : errTruthy s4.error_message = false)
    (hsess : s4.session_active = true) :
    ∃ pairPart sysPart,
      (finish_turn env s4).chat_history = s4.chat_history ++ pairPart ++ sysPart ∧
      pairPart.length ≤ 1 ∧ sysPart.length ≤ 2 ∧
      (∀ e ∈ sysPart, e.1 = "System") ∧
      (finish_turn env s4).session_active = true := by
  have hsessfin : (finish_turn env s4).session_active = true := by
    rw [finish_turn_session]
    exact hsess
  by_cases hg : strTruthy s4.current_user_input = true ∧ s4.session_active = true
  · cases hag : env.agent (aiContext s4) with
    | error e =>
        have h5 := ai_response_err env s4 e hg hag
        have h6 : text_to_speech_node env (ai_response_node env s4)
            = (ai_response_node env s4, []) := by
          refine tts_skip env _ ?_
          rw [h5]
          show strTruthy s4.current_response = false
          rw [strTruthy, hresp]
          decide
        have htru : errTruthy (some ("AI response error: " ++ e)) = true :=
          errTruthy_append_left "AI response error: " e (by decide)
        have hsc : should_continue ((text_to_speech_node env (ai_response_node env s4)).1)
            = "error_handler" := by
          rw [h6]
          refine should_continue_handler_of _ ?_ ?_
          · rw [ai_response_frame_session_active]
            exact hsess
          · rw [h5]
            exact htru
        refine ⟨[], [("System", "Error: " ++ ("AI response error: " ++ e))],
          ?_, by simp, by simp, by simp, hsessfin⟩
        rw [finish_turn_eq_handler env s4 hsc, h6]
        dsimp only
        rw [h5] <;> simp [error_handler_node]
    | ok r =>
        have h5 := ai_response_ok env s4 r hg hag
        by_cases hrr : strTruthy r = true
        · cases hp : env.ttsPrimary with
          | ok u =>
              have h6 := tts_primary_ok env (ai_response_node env s4) u (by rw [h5]; exact hrr) hp
              have hsc : ¬ should_continue ((text_to_speech_node env (ai_response_node env s4)).1)
                  = "error_handler" := by
                rw [h6]
                rw [should_continue_end_of _ (by rw [ai_response_frame_session_active]; exact hsess)
                      (by rw [h5]; exact herr)]
                decide
              refine ⟨[(s4.current_user_input, r)], [], ?_, by simp, by simp, by simp, hsessfin⟩
              rw [finish_turn_eq_end env s4 hsc, h6]
              dsimp only
              rw [h5] <;> simp
          | error e =>
              by_cases hq : isQuotaError e = true
              · cases hsec : env.ttsSecondary with
                | ok u =>
                    have h6 := tts_fallback_ok env (ai_response_node env s4) e u
                      (by rw [h5]; exact hrr) hp hq hsec
                    have hsc : ¬ should_continue
                        ((text_to_speech_node env (ai_response_node env s4)).1)
                        = "error_handler" := by
                      rw [h6]
                      rw [should_continue_end_of _
                            (by rw [ai_response_frame_session_active]; exact hsess)
                            (by rw [h5]; exact herr)]
                      decide
                    refine ⟨[(s4.current_user_input, r)], [("System", gttsSwitchNotice)],
                      ?_, by simp, by simp, by simp, hsessfin⟩
                    rw [finish_turn_eq_end env s4 hsc, h6]
                    dsimp only
                    rw [h5] <;> simp
                | error g =>
                    have h6 := tts_both_fail env (ai_response_node env s4) e g
                      (by rw [h5]; exact hrr) hp hq hsec
                    have htru : errTruthy (some ("TTS error: Both TTS services failed - ElevenLabs: "
                        ++ e ++ ", gTTS: " ++ g)) = true := by
                      refine errTruthy_append_left _ g ?_
                      refine errTruthy_append_left _ ", gTTS: " ?_
                      exact errTruthy_append_left
                        "TTS error: Both TTS services failed - ElevenLabs: " e (by decide)
                    have hsc : should_continue
                        ((text_to_speech_node env (ai_response_node env s4)).1)
                        = "error_handler" := by
                      rw [h6]
                      refine should_continue_handler_of _ ?_ ?_
                      · rw [ai_response_frame_session_active]
                        exact hsess
                      · exact htru
                    refine ⟨[(s4.current_user_input, r)],
                      [("System", ttsUnavailableNotice),
                       ("System", "Error: " ++ ("TTS error: Both TTS services failed - ElevenLabs: "
                          ++ e ++ ", gTTS: " ++ g))],
                      ?_, by simp, by simp, by simp, hsessfin⟩
                    rw [finish_turn_eq_handler env s4 hsc, h6]
                    dsimp only
                    rw [h5] <;> simp [error_handler_node]
              · have hqf : isQuotaError e = false := by
                  cases hqq : isQuotaError e
                  · rfl
                  · exact absurd hqq hq
                have h6 := tts_nonquota env (ai_response_node env s4) e
                  (by rw [h5]; exact hrr) hp hqf
                have htru : errTruthy (some ("TTS error: " ++ e)) = true :=
                  errTruthy_append_left "TTS error: " e (by decide)
                have hsc : should_continue
                    ((text_to_speech_node env (ai_response_node env s4)).1)
                    = "error_handler" := by
                  rw [h6]
                  refine should_continue_handler_of _ ?_ ?_
                  · rw [ai_response_frame_session_active]
                    exact hsess
                  · exact htru
                refine ⟨[(s4.current_user_input, r)],
                  [("System", "Error: " ++ ("TTS error: " ++ e))],
                  ?_, by simp, by simp, by simp, hsessfin⟩
                rw [finish_turn_eq_handler env s4 hsc, h6]
                dsimp only
                rw [h5] <;> simp [error_handler_node]
        · have hrf : strTruthy r = false := by
            cases hqq : strTruthy r
            · rfl
            · exact absurd hqq hrr
          have h6 : text_to_speech_node env (ai_response_node env s4)
              = (ai_response_node env s4, []) := by
            refine tts_skip env _ ?_
            rw [h5]
            exact hrf
          have hsc : ¬ should_continue ((text_to_speech_node env (ai_response_node env s4)).1)
              = "error_handler" := by
            rw [h6]
            rw [should_continue_end_of _ (by rw [ai_response_frame_session_active]; exact hsess)
                  (by rw [h5]; exact herr)]
            decide
          refine ⟨[(s4.current_user_input, r)], [], ?_, by simp, by simp, by simp, hsessfin⟩
          rw [finish_turn_eq_end env s4 hsc, h6]
          dsimp only
          rw [h5] <;> simp
  · have h5 : ai_response_node env s4 = s4 := ai_response_skip env s4 hg
    have h6 : text_to_speech_node env (ai_response_node env s4)
        = (ai_response_node env s4, []) := by
      refine tts_skip env _ ?_
      rw [h5, strTruthy, hresp]
      decide
    have hsc : ¬ should_continue ((text_to_speech_node env (ai_response_node env s4)).1)
        = "error_handler" := by
      rw [h6, h5]
      rw [should_continue_end_of _ hsess herr]
      decide
    refine ⟨[], [], ?_, by simp, by simp, by simp, hsessfin⟩
    rw [finish_turn_eq_end env s4 hsc, h6]
    dsimp only
    rw [h5] <;> simp

theorem should_error_truthy (s : AgentState)
    (h : should_use_tools s = "error") : errTruthy s.error_message = true := by
  unfold should_use_tools at h
  by_cases he : errTruthy s.error_message = true
  · exact he
  · rw [if_neg he] at h
    split at h <;> simp_all

theorem should_no_error_falsy (s : AgentState)
    (h : ¬ should_use_tools s = "error") : errTruthy s.error_message = false := by
  unfold should_use_tools at h
  by_cases he : errTruthy s.error_message = true
  · rw [if_pos he] at h
    simp at h
  · simp only [Bool.not_eq_true] at he
    exact he

theorem stateAtBranchA_hist (env : TurnEnv) (h : List (String × String)) :
    (stateAtBranchA env (create_initial_state h)).chat_history = h := by
  simp [stateAtBranchA, create_initial_state]

theorem stateAtBranchA_resp (env : TurnEnv) (h : List (String × String)) :
    (stateAtBranchA env (create_initial_state h)).current_response = "" := by
  simp [stateAtBranchA, create_initial_state]

theorem process_cycle_chat (d : Driver) (env : TurnEnv) (hp : d.is_processing = false) :
    (process_audio_cycle d env).chat_history
      = (if (invoke env (create_initial_state d.chat_history)).1.chat_history ≠ []
         then (invoke env (create_initial_state d.chat_history)).1.chat_history
         else d.chat_history)
        ++ (if (invoke env (create_initial_state d.chat_history)).1.session_active = false
            then [("System", sessionEndedMsg)] else []) := by
  unfold process_audio_cycle
  rw [hp]
  simp only [Bool.false_eq_true, if_false]
  cases hdi : (invoke env (create_initial_state d.chat_history)).1.detected_intent <;>
    by_cases hh : (invoke env (create_initial_state d.chat_history)).1.chat_history = [] <;>
      by_cases hs : (invoke env (create_initial_state d.chat_history)).1.session_active = true <;>
        simp_all

/-- C6 (amended): across turns the transcript only grows — each
`process_audio_cycle` call appends a suffix consisting of at most one
(user, response) pair followed by at most TWO "System" entries (a
text-to-speech notice and/or the error-handler record and/or the
session-end message), never truncating the existing history. -/
theorem c6_transcript_growth_amended (env : TurnEnv) (d : Driver) :
    ∃ pairPart sysPart,
      (process_audio_cycle d env).chat_history = d.chat_history ++ pairPart ++ sysPart ∧
      pairPart.length ≤ 1 ∧ sysPart.length ≤ 2 ∧
      ∀ e ∈ sysPart, e.1 = "System" := by
  by_cases hp : d.is_processing = true
  · refine ⟨[], [], ?_, by simp, by simp, by simp⟩
    unfold process_audio_cycle
    rw [hp]
    simp
  · have hp' : d.is_processing = false := by
      simp only [Bool.not_eq_true] at hp
      exact hp
    set s0 := create_initial_state d.chat_history with hs0
    by_cases hE : should_use_tools (stateAtBranchA env s0) = "error"
    · have htru := should_error_truthy _ hE
      have hsessA : (stateAtBranchA env s0).session_active = true :=
        branchA_error_active env d.chat_history htru
      have hinv : invoke env s0
          = (error_handler_node (stateAtBranchA env s0),
             [.record, .transcribe, .intent, .errorHandler]) := by
        unfold invoke
        rw [if_pos hE]
      cases hm : (stateAtBranchA env s0).error_message with
      | none =>
          rw [hm] at htru
          simp [errTruthy] at htru
      | some m =>
          have hfc : (invoke env s0).1.chat_history
              = d.chat_history ++ [("System", "Error: " ++ m)] := by
            rw [hinv]
            simp only [error_handler_node, hm]
            rw [hs0]
            rw [stateAtBranchA_hist env d.chat_history]
          have hfs : (invoke env s0).1.session_active = true := by
            rw [hinv]
            rw [error_handler_frame_session_active]
            exact hsessA
          refine ⟨[], [("System", "Error: " ++ m)], ?_, by simp, by simp, by simp⟩
          rw [process_cycle_chat d env hp', hfc, hfs]
          simp
    · set s4 := (if should_use_tools (stateAtBranchA env s0) = "use_tools"
                 then tool_execution_node env (stateAtBranchA env s0)
                 else stateAtBranchA env s0) with hs4
      have hfin : (invoke env s0).1 = finish_turn env s4 := by
        rw [hs4]
        exact invoke_finish env s0 hE
      have hs4hist : s4.chat_history = d.chat_history := by
        rw [hs4]
        split
        · rw [tool_execution_frame_chat_history]
          exact stateAtBranchA_hist env d.chat_history
        · exact stateAtBranchA_hist env d.chat_history
      have hs4resp : s4.current_response = "" := by
        rw [hs4]
        split
        · rw [tool_execution_frame_current_response]
          exact stateAtBranchA_resp env d.chat_history
        · exact stateAtBranchA_resp env d.chat_history
      have hs4err : errTruthy s4.error_message = false := by
        rw [hs4]
        split
        · rw [tool_execution_frame_error_message]
          exact should_no_error_falsy _ hE
        · exact should_no_error_falsy _ hE
      by_cases hss : s4.session_active = true
      · obtain ⟨pp, sp, hchat, hb1, hb2, hmem, hfsess⟩ :=
          finish_turn_active_append env s4 hs4resp hs4err hss
        refine ⟨pp, sp, ?_, hb1, hb2, hmem⟩
        rw [process_cycle_chat d env hp', hfin, hchat, hs4hist, hfsess]
        by_cases hne : d.chat_history ++ pp ++ sp = []
        · rw [List.append_assoc] at hne
          have h1 := (List.append_eq_nil.mp hne).1
          have h2 := List.append_eq_nil.mp (List.append_eq_nil.mp hne).2
          simp [hne, h1, h2.1, h2.2]
        · simp [hne]
      · have hssf : s4.session_active = false := by
          simp only [Bool.not_eq_true] at hss
          exact hss
        have hfe := finish_turn_inactive env s4 hs4resp hssf
        have hfc : (invoke env s0).1.chat_history = d.chat_history := by
          rw [hfin, hfe]
          exact hs4hist
        have hfs : (invoke env s0).1.session_active = false := by
          rw [hfin, hfe]
          exact hssf
        refine ⟨[], [("System", sessionEndedMsg)], ?_, by simp, by simp, by simp⟩
        rw [process_cycle_chat d env hp', hfc, hfs]
        by_cases hne : d.chat_history = [] <;> simp [hne]

/-- Environment of the C6 counterexample: the agent replies but both
synthesizers fail, the primary with a quota marker. -/
def c6Env : TurnEnv :=
  { sampleEnv with ttsPrimary := .error "quota exceeded", ttsSecondary := .error "gtts down" }

/-- Counterexample to C6 as stated: a single turn appends one (user,
response) pair plus TWO system entries — the audio-unavailable notice and
the error-handler record — so "at most one (user, response) pair plus at
most one system-error entry" fails on this turn. -/
theorem c6_counterexample :
    (process_audio_cycle sampleDriver c6Env).chat_history
      = [("hello there", "hi!"), ("System", ttsUnavailableNotice),
         ("System",
          "Error: TTS error: Both TTS services failed - ElevenLabs: quota exceeded, gTTS: gtts down")] ∧
    ((process_audio_cycle sampleDriver c6Env).chat_history.countP
        (fun e => e.1 == "System")) = 2 ∧
    ((process_audio_cycle sampleDriver c6Env).chat_history.countP
        (fun e => ! (e.1 == "System"))) = 1 := by
  refine ⟨by decide, by decide, by decide⟩
